import Mathlib

/-!
Verification of the semantic matching and ranking engine of `ticket-wizard`.

The development shallowly embeds the three scoring engines of the source:

* `RecommendationEngine` (src/services/recommendationEngine.ts): the
  attribute-weighted matcher over structured preferences;
* `VectorRecommendationEngine` (src/services/vectorRecommendationEngine.ts):
  rule-based 17-dimensional feature vectors compared by cosine similarity;
* `FAISSSearchService` (src/services/faissSearchService.ts): 384-dimensional
  feature vectors, an optional abstract index backend, and a linear fallback
  scan — whose query embedding is an un-awaited `Promise` in the source, so
  the scan's every cosine similarity is 0 (see `fallbackSearch`).

Modelling conventions:

* JavaScript strings are `List Char`; `s.includes(sub)` is the infix
  relation `sub <:+: s`; `toLowerCase` maps `Char.toLower`.
* JavaScript numbers are embedded as `ℚ` wherever the source only uses
  field operations, `min`, and comparisons, and as `ℝ` where `Math.log`
  or cosine similarity (square roots) appear.  `Math.round` is Mathlib's
  `round` (both compute `⌊x + 1/2⌋`).
* `Date` values are modelled by the fields the engines read from a parsed
  date: `getTime()` (milliseconds), `getMonth()`, `getDay()`; string-to-date
  parsing is browser behaviour outside the engines.
* JavaScript truthiness of the optional preference fields is modelled
  exactly: an empty string and the number `0` count as absent.
* Template-literal reason strings are modelled by inductive reason values
  carrying the interpolated data; this keeps which reason fired, and with
  which payload, while avoiding number-to-string formatting.
-/

/-- JavaScript strings, as lists of characters. -/
abbrev Str := List Char

/-- JS `s.toLowerCase()`. -/
def lowerStr (s : Str) : Str := s.map Char.toLower

/-- JS `s.includes(sub)` : substring containment. -/
def jsIncludes (s sub : Str) : Bool := decide (sub <:+: s)

/-- The fields of a parsed JS `Date` that the engines read. -/
structure JSDate where
  time : ℚ
  month : ℕ
  day : ℕ
deriving DecidableEq

/-- A budget range from `UserPreferences`. -/
structure BudgetRange where
  lo : ℚ
  hi : ℚ
deriving DecidableEq

/-- A catalog record (src/types: `TicketPackage`). -/
structure TicketPackage where
  id : Str
  price : ℚ
  venue : Str
  date : JSDate
  sportType : Str
  seatingCategory : Str
  hospitalityType : Str
  hospitalityLevel : Str
  location : Str
  availableTickets : ℕ
  description : Str
deriving DecidableEq

/-- Structured preferences (src/types: `UserPreferences`); every field
optional, with JS truthiness of `""` and `0` handled at use sites. -/
structure UserPreferences where
  location : Option Str
  sport : Option Str
  hospitalityType : Option Str
  date : Option JSDate
  peopleCount : Option ℕ
  budget : Option BudgetRange
deriving DecidableEq

/-- Scored result (src/types: `RecommendationScore`), with the reason
representation a parameter since each engine builds its own strings. -/
structure RecommendationScore (ρ : Type) where
  package : TicketPackage
  score : ℤ
  reasons : List ρ
deriving DecidableEq

namespace RecommendationEngine

/-- Guard of the location term: JS
`preferences.location && pkg.location.toLowerCase().includes(preferences.location.toLowerCase())`. -/
def locationMatch (prefs : UserPreferences) (pkg : TicketPackage) : Bool :=
  match prefs.location with
  | none => false
  | some l => !l.isEmpty && jsIncludes (lowerStr pkg.location) (lowerStr l)

/-- Guard of the sport term. -/
def sportMatch (prefs : UserPreferences) (pkg : TicketPackage) : Bool :=
  match prefs.sport with
  | none => false
  | some s => !s.isEmpty && jsIncludes (lowerStr pkg.sportType) (lowerStr s)

/-- Guard of the hospitality term. -/
def hospitalityMatch (prefs : UserPreferences) (pkg : TicketPackage) : Bool :=
  match prefs.hospitalityType with
  | none => false
  | some h => !h.isEmpty && jsIncludes (lowerStr pkg.hospitalityType) (lowerStr h)

/-- Guard of the party-size term: JS
`preferences.peopleCount && pkg.availableTickets >= preferences.peopleCount`. -/
def peopleMatch (prefs : UserPreferences) (pkg : TicketPackage) : Bool :=
  match prefs.peopleCount with
  | none => false
  | some n => decide (n ≠ 0) && decide (n ≤ pkg.availableTickets)

/-- Location contribution: `weights.location = 30`. -/
def locationTerm (prefs : UserPreferences) (pkg : TicketPackage) : ℚ :=
  if locationMatch prefs pkg then 30 else 0

/-- Sport contribution: `weights.sport = 25`. -/
def sportTerm (prefs : UserPreferences) (pkg : TicketPackage) : ℚ :=
  if sportMatch prefs pkg then 25 else 0

/-- Hospitality contribution: `weights.hospitality = 20`. -/
def hospitalityTerm (prefs : UserPreferences) (pkg : TicketPackage) : ℚ :=
  if hospitalityMatch prefs pkg then 20 else 0

/-- Date contribution: within 30 days, `weights.date * (1 - daysDiff/30)`. -/
def dateTerm (prefs : UserPreferences) (pkg : TicketPackage) : ℚ :=
  match prefs.date with
  | none => 0
  | some d =>
      let daysDiff := |pkg.date.time - d.time| / (1000 * 60 * 60 * 24)
      if daysDiff ≤ 30 then 15 * (1 - daysDiff / 30) else 0

/-- Party-size contribution: `weights.people = 10`. -/
def peopleTerm (prefs : UserPreferences) (pkg : TicketPackage) : ℚ :=
  if peopleMatch prefs pkg then 10 else 0

/-- Budget contribution: `+20` within `[min,max]`, `+10` under `min`. -/
def budgetTerm (prefs : UserPreferences) (pkg : TicketPackage) : ℚ :=
  match prefs.budget with
  | none => 0
  | some b =>
      if b.lo ≤ pkg.price ∧ pkg.price ≤ b.hi then 20
      else if pkg.price < b.lo then 10
      else 0

/-- `RecommendationEngine.calculateScore`: additive weighted scoring,
rounded (`Math.round`) to an integer. -/
def calculateScore (pkg : TicketPackage) (prefs : UserPreferences) : ℤ :=
  round (locationTerm prefs pkg + sportTerm prefs pkg + hospitalityTerm prefs pkg
    + dateTerm prefs pkg + peopleTerm prefs pkg + budgetTerm prefs pkg)

/-- Reason strings of the attribute matcher, with their interpolated data. -/
inductive Reason
  | location (loc : Str)
  | sport (sportType : Str)
  | hospitality (hosp : Str)
  | people (available : ℕ)
  | budget (price : ℚ)
deriving DecidableEq

/-- Guard of the budget reason: JS
`preferences.budget && pkg.price <= preferences.budget.max`. -/
def budgetReasonCond (prefs : UserPreferences) (pkg : TicketPackage) : Bool :=
  match prefs.budget with
  | none => false
  | some b => decide (pkg.price ≤ b.hi)

/-- `RecommendationEngine.getReasons`: one push per firing guard, in
source order.  Note: there is no date-proximity reason in the source. -/
def getReasons (pkg : TicketPackage) (prefs : UserPreferences) : List Reason :=
  (if locationMatch prefs pkg then [Reason.location pkg.location] else [])
  ++ (if sportMatch prefs pkg then [Reason.sport pkg.sportType] else [])
  ++ (if hospitalityMatch prefs pkg then [Reason.hospitality pkg.hospitalityType] else [])
  ++ (if peopleMatch prefs pkg then [Reason.people pkg.availableTickets] else [])
  ++ (if budgetReasonCond prefs pkg then [Reason.budget pkg.price] else [])

/-- `RecommendationEngine.findRecommendations`: score all packages, keep
strictly positive scores, sort descending by score (stable), take 5. -/
def findRecommendations (packages : List TicketPackage) (prefs : UserPreferences) :
    List (RecommendationScore Reason) :=
  ((((packages.map fun p =>
        RecommendationScore.mk p (calculateScore p prefs) (getReasons p prefs))).filter
      (fun r => 0 < r.score)).mergeSort (fun a b => b.score ≤ a.score)).take 5

end RecommendationEngine

section SanityChecks

/-- A package matching every preference dimension. -/
def pkgFull : TicketPackage where
  id := [ 'p', '1' ]
  price := 450
  venue := ("Madison Square Garden").toList
  date := { time := 1710460800000, month := 2, day := 5 }
  sportType := ("Basketball").toList
  seatingCategory := ("Premium").toList
  hospitalityType := ("VIP Lounge").toList
  hospitalityLevel := ("Platinum").toList
  location := ("New York").toList
  availableTickets := 8
  description := ("Premium courtside seats").toList

/-- Preferences matching `pkgFull` on every dimension. -/
def prefsFull : UserPreferences where
  location := some (("new york").toList)
  sport := some (("basketball").toList)
  hospitalityType := some (("vip").toList)
  date := some { time := 1710460800000, month := 2, day := 5 }
  peopleCount := some 4
  budget := some { lo := 100, hi := 500 }

/-- Preferences with only the target date set (matching `pkgFull`'s date). -/
def prefsDateOnly : UserPreferences where
  location := none
  sport := none
  hospitalityType := none
  date := some { time := 1710460800000, month := 2, day := 5 }
  peopleCount := none
  budget := none

end SanityChecks

namespace RecommendationEngine

theorem roundQ_mono {x y : ℚ} (h : x ≤ y) : round x ≤ round y := by
  rw [round_eq, round_eq]
  exact Int.floor_mono (by linarith)

theorem roundQ_add_ten (x : ℚ) : round (x + 10) = round x + 10 := by
  exact_mod_cast round_add_int x 10

theorem roundQ_add_twenty (x : ℚ) : round (x + 20) = round x + 20 := by
  exact_mod_cast round_add_int x 20

theorem locationTerm_nonneg (prefs : UserPreferences) (pkg : TicketPackage) :
    0 ≤ locationTerm prefs pkg := by
  unfold locationTerm; split <;> norm_num

theorem sportTerm_nonneg (prefs : UserPreferences) (pkg : TicketPackage) :
    0 ≤ sportTerm prefs pkg := by
  unfold sportTerm; split <;> norm_num

theorem hospitalityTerm_nonneg (prefs : UserPreferences) (pkg : TicketPackage) :
    0 ≤ hospitalityTerm prefs pkg := by
  unfold hospitalityTerm; split <;> norm_num

theorem dateTerm_nonneg (prefs : UserPreferences) (pkg : TicketPackage) :
    0 ≤ dateTerm prefs pkg := by
  unfold dateTerm
  rcases prefs.date with _ | d
  · norm_num
  · simp only
    split
    · rename_i h
      have h0 : 0 ≤ |pkg.date.time - d.time| / (1000 * 60 * 60 * 24) :=
        div_nonneg (abs_nonneg _) (by norm_num)
      nlinarith
    · norm_num

theorem peopleTerm_nonneg (prefs : UserPreferences) (pkg : TicketPackage) :
    0 ≤ peopleTerm prefs pkg := by
  unfold peopleTerm; split <;> norm_num

theorem budgetTerm_nonneg (prefs : UserPreferences) (pkg : TicketPackage) :
    0 ≤ budgetTerm prefs pkg := by
  unfold budgetTerm
  rcases prefs.budget with _ | b
  · norm_num
  · simp only
    split
    · norm_num
    · split <;> norm_num

theorem locationTerm_le (prefs : UserPreferences) (pkg : TicketPackage) :
    locationTerm prefs pkg ≤ 30 := by
  unfold locationTerm; split <;> norm_num

theorem sportTerm_le (prefs : UserPreferences) (pkg : TicketPackage) :
    sportTerm prefs pkg ≤ 25 := by
  unfold sportTerm; split <;> norm_num

theorem hospitalityTerm_le (prefs : UserPreferences) (pkg : TicketPackage) :
    hospitalityTerm prefs pkg ≤ 20 := by
  unfold hospitalityTerm; split <;> norm_num

theorem dateTerm_le (prefs : UserPreferences) (pkg : TicketPackage) :
    dateTerm prefs pkg ≤ 15 := by
  unfold dateTerm
  rcases prefs.date with _ | d
  · norm_num
  · simp only
    split
    · have h0 : 0 ≤ |pkg.date.time - d.time| / (1000 * 60 * 60 * 24) :=
        div_nonneg (abs_nonneg _) (by norm_num)
      nlinarith
    · norm_num

theorem peopleTerm_le (prefs : UserPreferences) (pkg : TicketPackage) :
    peopleTerm prefs pkg ≤ 10 := by
  unfold peopleTerm; split <;> norm_num

theorem budgetTerm_le (prefs : UserPreferences) (pkg : TicketPackage) :
    budgetTerm prefs pkg ≤ 20 := by
  unfold budgetTerm
  rcases prefs.budget with _ | b
  · norm_num
  · simp only
    split
    · norm_num
    · split <;> norm_num

/-- The score before rounding is bounded by the sum of all weights. -/
theorem score_sum_le (prefs : UserPreferences) (pkg : TicketPackage) :
    locationTerm prefs pkg + sportTerm prefs pkg + hospitalityTerm prefs pkg
      + dateTerm prefs pkg + peopleTerm prefs pkg + budgetTerm prefs pkg ≤ 120 := by
  have h1 := locationTerm_le prefs pkg
  have h2 := sportTerm_le prefs pkg
  have h3 := hospitalityTerm_le prefs pkg
  have h4 := dateTerm_le prefs pkg
  have h5 := peopleTerm_le prefs pkg
  have h6 := budgetTerm_le prefs pkg
  linarith

theorem calculateScore_le (pkg : TicketPackage) (prefs : UserPreferences) :
    calculateScore pkg prefs ≤ 120 := by
  have h := roundQ_mono (score_sum_le prefs pkg)
  rw [show ((120 : ℚ) = ((120 : ℤ) : ℚ)) by norm_num, round_intCast] at h
  exact h

end RecommendationEngine

namespace RecommendationEngine

/-- Each non-budget term ignores the package price. -/
theorem locationTerm_price (prefs : UserPreferences) (pkg : TicketPackage) (c : ℚ) :
    locationTerm prefs { pkg with price := c } = locationTerm prefs pkg := rfl

theorem sportTerm_price (prefs : UserPreferences) (pkg : TicketPackage) (c : ℚ) :
    sportTerm prefs { pkg with price := c } = sportTerm prefs pkg := rfl

theorem hospitalityTerm_price (prefs : UserPreferences) (pkg : TicketPackage) (c : ℚ) :
    hospitalityTerm prefs { pkg with price := c } = hospitalityTerm prefs pkg := rfl

theorem dateTerm_price (prefs : UserPreferences) (pkg : TicketPackage) (c : ℚ) :
    dateTerm prefs { pkg with price := c } = dateTerm prefs pkg := rfl

theorem peopleTerm_price (prefs : UserPreferences) (pkg : TicketPackage) (c : ℚ) :
    peopleTerm prefs { pkg with price := c } = peopleTerm prefs pkg := rfl

/-- With the budget present, the budget term only looks at the price. -/
theorem budgetTerm_price (prefs : UserPreferences) (pkg : TicketPackage)
    (b : BudgetRange) (hb : prefs.budget = some b) (c : ℚ) :
    budgetTerm prefs { pkg with price := c }
      = if b.lo ≤ c ∧ c ≤ b.hi then (20 : ℚ) else if c < b.lo then 10 else 0 := by
  simp only [budgetTerm, hb]

theorem calculateScore_price (pkg : TicketPackage) (prefs : UserPreferences) (c : ℚ) :
    calculateScore { pkg with price := c } prefs
      = round (locationTerm prefs pkg + sportTerm prefs pkg + hospitalityTerm prefs pkg
          + dateTerm prefs pkg + peopleTerm prefs pkg
          + budgetTerm prefs { pkg with price := c }) := by
  unfold calculateScore
  rw [locationTerm_price, sportTerm_price, hospitalityTerm_price, dateTerm_price,
    peopleTerm_price]

end RecommendationEngine

/-- C6: for packages identical except in price, with a budget whose min ≤ max,
the score of a package priced under the minimum is strictly below that of one
priced within the range, and both are strictly above that of a package priced
over the maximum; the budget term contributes 20 / 10 / 0 respectively. -/
theorem claim_C6 (pkg : TicketPackage) (prefs : UserPreferences)
    (b : BudgetRange) (hb : prefs.budget = some b) (hlh : b.lo ≤ b.hi)
    (c₁ c₂ c₃ : ℚ) (h1 : c₁ < b.lo) (h2l : b.lo ≤ c₂) (h2h : c₂ ≤ b.hi) (h3 : b.hi < c₃) :
    RecommendationEngine.calculateScore { pkg with price := c₃ } prefs
      < RecommendationEngine.calculateScore { pkg with price := c₁ } prefs
    ∧ RecommendationEngine.calculateScore { pkg with price := c₁ } prefs
      < RecommendationEngine.calculateScore { pkg with price := c₂ } prefs
    ∧ RecommendationEngine.budgetTerm prefs { pkg with price := c₃ } = 0
    ∧ RecommendationEngine.budgetTerm prefs { pkg with price := c₁ } = 10
    ∧ RecommendationEngine.budgetTerm prefs { pkg with price := c₂ } = 20 := by
  have hb1 : RecommendationEngine.budgetTerm prefs { pkg with price := c₁ } = 10 := by
    rw [RecommendationEngine.budgetTerm_price prefs pkg b hb]
    rw [if_neg (fun h => absurd h.1 (not_le.2 h1)), if_pos h1]
  have hb2 : RecommendationEngine.budgetTerm prefs { pkg with price := c₂ } = 20 := by
    rw [RecommendationEngine.budgetTerm_price prefs pkg b hb]
    rw [if_pos ⟨h2l, h2h⟩]
  have hb3 : RecommendationEngine.budgetTerm prefs { pkg with price := c₃ } = 0 := by
    rw [RecommendationEngine.budgetTerm_price prefs pkg b hb]
    rw [if_neg (fun h => absurd h.2 (not_le.2 h3)), if_neg (not_lt.2 (hlh.trans h3.le))]
  have e1 := RecommendationEngine.calculateScore_price pkg prefs c₁
  have e2 := RecommendationEngine.calculateScore_price pkg prefs c₂
  have e3 := RecommendationEngine.calculateScore_price pkg prefs c₃
  rw [hb1, RecommendationEngine.roundQ_add_ten] at e1
  rw [hb2, RecommendationEngine.roundQ_add_twenty] at e2
  rw [hb3, add_zero] at e3
  refine ⟨?_, ?_, hb3, hb1, hb2⟩
  · rw [e1, e3]; omega
  · rw [e1, e2]; omega

/-- Witness for C6 at a concrete catalog item, budget `[100, 500]` and
prices 50 / 450 / 900. -/
theorem claim_C6_witness :
    RecommendationEngine.calculateScore { pkgFull with price := 900 } prefsFull
      < RecommendationEngine.calculateScore { pkgFull with price := 50 } prefsFull
    ∧ RecommendationEngine.calculateScore { pkgFull with price := 50 } prefsFull
      < RecommendationEngine.calculateScore { pkgFull with price := 450 } prefsFull
    ∧ RecommendationEngine.budgetTerm prefsFull { pkgFull with price := 900 } = 0
    ∧ RecommendationEngine.budgetTerm prefsFull { pkgFull with price := 50 } = 10
    ∧ RecommendationEngine.budgetTerm prefsFull { pkgFull with price := 450 } = 20 :=
  claim_C6 pkgFull prefsFull { lo := 100, hi := 500 } rfl (by norm_num)
    50 450 900 (by norm_num) (by norm_num) (by norm_num) (by norm_num)

/-- C10: setting one additional preference field (previously unset) never
decreases the attribute-matcher score: every term is non-negative. -/
theorem claim_C10 (pkg : TicketPackage) (prefs : UserPreferences) :
    (∀ l, prefs.location = none →
      RecommendationEngine.calculateScore pkg prefs
        ≤ RecommendationEngine.calculateScore pkg { prefs with location := some l })
    ∧ (∀ s, prefs.sport = none →
      RecommendationEngine.calculateScore pkg prefs
        ≤ RecommendationEngine.calculateScore pkg { prefs with sport := some s })
    ∧ (∀ h, prefs.hospitalityType = none →
      RecommendationEngine.calculateScore pkg prefs
        ≤ RecommendationEngine.calculateScore pkg { prefs with hospitalityType := some h })
    ∧ (∀ d, prefs.date = none →
      RecommendationEngine.calculateScore pkg prefs
        ≤ RecommendationEngine.calculateScore pkg { prefs with date := some d })
    ∧ (∀ n, prefs.peopleCount = none →
      RecommendationEngine.calculateScore pkg prefs
        ≤ RecommendationEngine.calculateScore pkg { prefs with peopleCount := some n })
    ∧ (∀ b, prefs.budget = none →
      RecommendationEngine.calculateScore pkg prefs
        ≤ RecommendationEngine.calculateScore pkg { prefs with budget := some b }) := by
  refine ⟨?_, ?_, ?_, ?_, ?_, ?_⟩
  · intro l hl
    have hold : RecommendationEngine.locationTerm prefs pkg = 0 := by
      simp [RecommendationEngine.locationTerm, RecommendationEngine.locationMatch, hl]
    have hnew := RecommendationEngine.locationTerm_nonneg { prefs with location := some l } pkg
    unfold RecommendationEngine.calculateScore
    apply RecommendationEngine.roundQ_mono
    have h2 : RecommendationEngine.sportTerm { prefs with location := some l } pkg
        = RecommendationEngine.sportTerm prefs pkg := rfl
    have h3 : RecommendationEngine.hospitalityTerm { prefs with location := some l } pkg
        = RecommendationEngine.hospitalityTerm prefs pkg := rfl
    have h4 : RecommendationEngine.dateTerm { prefs with location := some l } pkg
        = RecommendationEngine.dateTerm prefs pkg := rfl
    have h5 : RecommendationEngine.peopleTerm { prefs with location := some l } pkg
        = RecommendationEngine.peopleTerm prefs pkg := rfl
    have h6 : RecommendationEngine.budgetTerm { prefs with location := some l } pkg
        = RecommendationEngine.budgetTerm prefs pkg := rfl
    rw [h2, h3, h4, h5, h6, hold]
    linarith
  · intro s hs
    have hold : RecommendationEngine.sportTerm prefs pkg = 0 := by
      simp [RecommendationEngine.sportTerm, RecommendationEngine.sportMatch, hs]
    have hnew := RecommendationEngine.sportTerm_nonneg { prefs with sport := some s } pkg
    unfold RecommendationEngine.calculateScore
    apply RecommendationEngine.roundQ_mono
    have h2 : RecommendationEngine.locationTerm { prefs with sport := some s } pkg
        = RecommendationEngine.locationTerm prefs pkg := rfl
    have h3 : RecommendationEngine.hospitalityTerm { prefs with sport := some s } pkg
        = RecommendationEngine.hospitalityTerm prefs pkg := rfl
    have h4 : RecommendationEngine.dateTerm { prefs with sport := some s } pkg
        = RecommendationEngine.dateTerm prefs pkg := rfl
    have h5 : RecommendationEngine.peopleTerm { prefs with sport := some s } pkg
        = RecommendationEngine.peopleTerm prefs pkg := rfl
    have h6 : RecommendationEngine.budgetTerm { prefs with sport := some s } pkg
        = RecommendationEngine.budgetTerm prefs pkg := rfl
    rw [h2, h3, h4, h5, h6, hold]
    linarith
  · intro t ht
    have hold : RecommendationEngine.hospitalityTerm prefs pkg = 0 := by
      simp [RecommendationEngine.hospitalityTerm, RecommendationEngine.hospitalityMatch, ht]
    have hnew :=
      RecommendationEngine.hospitalityTerm_nonneg { prefs with hospitalityType := some t } pkg
    unfold RecommendationEngine.calculateScore
    apply RecommendationEngine.roundQ_mono
    have h2 : RecommendationEngine.locationTerm { prefs with hospitalityType := some t } pkg
        = RecommendationEngine.locationTerm prefs pkg := rfl
    have h3 : RecommendationEngine.sportTerm { prefs with hospitalityType := some t } pkg
        = RecommendationEngine.sportTerm prefs pkg := rfl
    have h4 : RecommendationEngine.dateTerm { prefs with hospitalityType := some t } pkg
        = RecommendationEngine.dateTerm prefs pkg := rfl
    have h5 : RecommendationEngine.peopleTerm { prefs with hospitalityType := some t } pkg
        = RecommendationEngine.peopleTerm prefs pkg := rfl
    have h6 : RecommendationEngine.budgetTerm { prefs with hospitalityType := some t } pkg
        = RecommendationEngine.budgetTerm prefs pkg := rfl
    rw [h2, h3, h4, h5, h6, hold]
    linarith
  · intro d hd
    have hold : RecommendationEngine.dateTerm prefs pkg = 0 := by
      simp [RecommendationEngine.dateTerm, hd]
    have hnew := RecommendationEngine.dateTerm_nonneg { prefs with date := some d } pkg
    unfold RecommendationEngine.calculateScore
    apply RecommendationEngine.roundQ_mono
    have h2 : RecommendationEngine.locationTerm { prefs with date := some d } pkg
        = RecommendationEngine.locationTerm prefs pkg := rfl
    have h3 : RecommendationEngine.sportTerm { prefs with date := some d } pkg
        = RecommendationEngine.sportTerm prefs pkg := rfl
    have h4 : RecommendationEngine.hospitalityTerm { prefs with date := some d } pkg
        = RecommendationEngine.hospitalityTerm prefs pkg := rfl
    have h5 : RecommendationEngine.peopleTerm { prefs with date := some d } pkg
        = RecommendationEngine.peopleTerm prefs pkg := rfl
    have h6 : RecommendationEngine.budgetTerm { prefs with date := some d } pkg
        = RecommendationEngine.budgetTerm prefs pkg := rfl
    rw [h2, h3, h4, h5, h6, hold]
    linarith
  · intro n hn
    have hold : RecommendationEngine.peopleTerm prefs pkg = 0 := by
      simp [RecommendationEngine.peopleTerm, RecommendationEngine.peopleMatch, hn]
    have hnew := RecommendationEngine.peopleTerm_nonneg { prefs with peopleCount := some n } pkg
    unfold RecommendationEngine.calculateScore
    apply RecommendationEngine.roundQ_mono
    have h2 : RecommendationEngine.locationTerm { prefs with peopleCount := some n } pkg
        = RecommendationEngine.locationTerm prefs pkg := rfl
    have h3 : RecommendationEngine.sportTerm { prefs with peopleCount := some n } pkg
        = RecommendationEngine.sportTerm prefs pkg := rfl
    have h4 : RecommendationEngine.hospitalityTerm { prefs with peopleCount := some n } pkg
        = RecommendationEngine.hospitalityTerm prefs pkg := rfl
    have h5 : RecommendationEngine.dateTerm { prefs with peopleCount := some n } pkg
        = RecommendationEngine.dateTerm prefs pkg := rfl
    have h6 : RecommendationEngine.budgetTerm { prefs with peopleCount := some n } pkg
        = RecommendationEngine.budgetTerm prefs pkg := rfl
    rw [h2, h3, h4, h5, h6, hold]
    linarith
  · intro b hb
    have hold : RecommendationEngine.budgetTerm prefs pkg = 0 := by
      simp [RecommendationEngine.budgetTerm, hb]
    have hnew := RecommendationEngine.budgetTerm_nonneg { prefs with budget := some b } pkg
    unfold RecommendationEngine.calculateScore
    apply RecommendationEngine.roundQ_mono
    have h2 : RecommendationEngine.locationTerm { prefs with budget := some b } pkg
        = RecommendationEngine.locationTerm prefs pkg := rfl
    have h3 : RecommendationEngine.sportTerm { prefs with budget := some b } pkg
        = RecommendationEngine.sportTerm prefs pkg := rfl
    have h4 : RecommendationEngine.hospitalityTerm { prefs with budget := some b } pkg
        = RecommendationEngine.hospitalityTerm prefs pkg := rfl
    have h5 : RecommendationEngine.dateTerm { prefs with budget := some b } pkg
        = RecommendationEngine.dateTerm prefs pkg := rfl
    have h6 : RecommendationEngine.peopleTerm { prefs with budget := some b } pkg
        = RecommendationEngine.peopleTerm prefs pkg := rfl
    rw [h2, h3, h4, h5, h6, hold]
    linarith

/-- Witness for C10: adding a location preference to date-only preferences. -/
theorem claim_C10_witness :
    RecommendationEngine.calculateScore pkgFull prefsDateOnly
      ≤ RecommendationEngine.calculateScore pkgFull
          { prefsDateOnly with location := some (("new york").toList) } :=
  (claim_C10 pkgFull prefsDateOnly).1 (("new york").toList) rfl

/-- C8 counterexample: with only a date preference set, matching the package
date exactly, the date-proximity term contributes 15 to the score, yet
`getReasons` produces no reason at all — the source has no date reason. -/
theorem claim_C8_counterexample :
    RecommendationEngine.dateTerm prefsDateOnly pkgFull ≠ 0
    ∧ RecommendationEngine.getReasons pkgFull prefsDateOnly = []
    ∧ RecommendationEngine.calculateScore pkgFull prefsDateOnly = 15 := by
  refine ⟨?_, rfl, ?_⟩
  · norm_num [RecommendationEngine.dateTerm, prefsDateOnly, pkgFull]
  · have h : RecommendationEngine.locationTerm prefsDateOnly pkgFull
        + RecommendationEngine.sportTerm prefsDateOnly pkgFull
        + RecommendationEngine.hospitalityTerm prefsDateOnly pkgFull
        + RecommendationEngine.dateTerm prefsDateOnly pkgFull
        + RecommendationEngine.peopleTerm prefsDateOnly pkgFull
        + RecommendationEngine.budgetTerm prefsDateOnly pkgFull = 15 := by
      norm_num [RecommendationEngine.locationTerm, RecommendationEngine.sportTerm,
        RecommendationEngine.hospitalityTerm, RecommendationEngine.dateTerm,
        RecommendationEngine.peopleTerm, RecommendationEngine.budgetTerm,
        RecommendationEngine.locationMatch, RecommendationEngine.sportMatch,
        RecommendationEngine.hospitalityMatch, RecommendationEngine.peopleMatch,
        prefsDateOnly, pkgFull]
    unfold RecommendationEngine.calculateScore
    rw [h, show ((15 : ℚ) = ((15 : ℤ) : ℚ)) by norm_num, round_intCast]

namespace RecommendationEngine

theorem mem_getReasons_location (pkg : TicketPackage) (prefs : UserPreferences) :
    Reason.location pkg.location ∈ getReasons pkg prefs ↔ locationMatch prefs pkg = true := by
  cases h1 : locationMatch prefs pkg <;>
    cases h2 : sportMatch prefs pkg <;>
      cases h3 : hospitalityMatch prefs pkg <;>
        cases h4 : peopleMatch prefs pkg <;>
          cases h5 : budgetReasonCond prefs pkg <;>
            simp [getReasons, h1, h2, h3, h4, h5]

theorem mem_getReasons_sport (pkg : TicketPackage) (prefs : UserPreferences) :
    Reason.sport pkg.sportType ∈ getReasons pkg prefs ↔ sportMatch prefs pkg = true := by
  cases h1 : locationMatch prefs pkg <;>
    cases h2 : sportMatch prefs pkg <;>
      cases h3 : hospitalityMatch prefs pkg <;>
        cases h4 : peopleMatch prefs pkg <;>
          cases h5 : budgetReasonCond prefs pkg <;>
            simp [getReasons, h1, h2, h3, h4, h5]

theorem mem_getReasons_hospitality (pkg : TicketPackage) (prefs : UserPreferences) :
    Reason.hospitality pkg.hospitalityType ∈ getReasons pkg prefs
      ↔ hospitalityMatch prefs pkg = true := by
  cases h1 : locationMatch prefs pkg <;>
    cases h2 : sportMatch prefs pkg <;>
      cases h3 : hospitalityMatch prefs pkg <;>
        cases h4 : peopleMatch prefs pkg <;>
          cases h5 : budgetReasonCond prefs pkg <;>
            simp [getReasons, h1, h2, h3, h4, h5]

theorem mem_getReasons_people (pkg : TicketPackage) (prefs : UserPreferences) :
    Reason.people pkg.availableTickets ∈ getReasons pkg prefs
      ↔ peopleMatch prefs pkg = true := by
  cases h1 : locationMatch prefs pkg <;>
    cases h2 : sportMatch prefs pkg <;>
      cases h3 : hospitalityMatch prefs pkg <;>
        cases h4 : peopleMatch prefs pkg <;>
          cases h5 : budgetReasonCond prefs pkg <;>
            simp [getReasons, h1, h2, h3, h4, h5]

theorem mem_getReasons_budget (pkg : TicketPackage) (prefs : UserPreferences) :
    Reason.budget pkg.price ∈ getReasons pkg prefs ↔ budgetReasonCond prefs pkg = true := by
  cases h1 : locationMatch prefs pkg <;>
    cases h2 : sportMatch prefs pkg <;>
      cases h3 : hospitalityMatch prefs pkg <;>
        cases h4 : peopleMatch prefs pkg <;>
          cases h5 : budgetReasonCond prefs pkg <;>
            simp [getReasons, h1, h2, h3, h4, h5]

end RecommendationEngine

/-- C8 (amended): the reasons list mirrors the location, sport, hospitality
and party-size terms exactly, and — whenever the budget range is well-formed
(min ≤ max) — the budget reason as well; the date-proximity term never
produces a reason (see the counterexample). -/
theorem claim_C8_amended (pkg : TicketPackage) (prefs : UserPreferences) :
    (RecommendationEngine.Reason.location pkg.location
        ∈ RecommendationEngine.getReasons pkg prefs
      ↔ RecommendationEngine.locationTerm prefs pkg ≠ 0)
    ∧ (RecommendationEngine.Reason.sport pkg.sportType
        ∈ RecommendationEngine.getReasons pkg prefs
      ↔ RecommendationEngine.sportTerm prefs pkg ≠ 0)
    ∧ (RecommendationEngine.Reason.hospitality pkg.hospitalityType
        ∈ RecommendationEngine.getReasons pkg prefs
      ↔ RecommendationEngine.hospitalityTerm prefs pkg ≠ 0)
    ∧ (RecommendationEngine.Reason.people pkg.availableTickets
        ∈ RecommendationEngine.getReasons pkg prefs
      ↔ RecommendationEngine.peopleTerm prefs pkg ≠ 0)
    ∧ (∀ b : BudgetRange, prefs.budget = some b → b.lo ≤ b.hi →
        (RecommendationEngine.Reason.budget pkg.price
            ∈ RecommendationEngine.getReasons pkg prefs
          ↔ RecommendationEngine.budgetTerm prefs pkg ≠ 0)) := by
  refine ⟨?_, ?_, ?_, ?_, ?_⟩
  · rw [RecommendationEngine.mem_getReasons_location]
    cases h : RecommendationEngine.locationMatch prefs pkg <;>
      simp [RecommendationEngine.locationTerm, h]
  · rw [RecommendationEngine.mem_getReasons_sport]
    cases h : RecommendationEngine.sportMatch prefs pkg <;>
      simp [RecommendationEngine.sportTerm, h]
  · rw [RecommendationEngine.mem_getReasons_hospitality]
    cases h : RecommendationEngine.hospitalityMatch prefs pkg <;>
      simp [RecommendationEngine.hospitalityTerm, h]
  · rw [RecommendationEngine.mem_getReasons_people]
    cases h : RecommendationEngine.peopleMatch prefs pkg <;>
      simp [RecommendationEngine.peopleTerm, h]
  · intro b hb hlh
    rw [RecommendationEngine.mem_getReasons_budget]
    have hc : RecommendationEngine.budgetReasonCond prefs pkg = true ↔ pkg.price ≤ b.hi := by
      simp [RecommendationEngine.budgetReasonCond, hb]
    rw [hc]
    simp only [RecommendationEngine.budgetTerm, hb]
    by_cases h1 : b.lo ≤ pkg.price ∧ pkg.price ≤ b.hi
    · rw [if_pos h1]
      exact iff_of_true h1.2 (by norm_num)
    · by_cases h2 : pkg.price < b.lo
      · rw [if_neg h1, if_pos h2]
        exact iff_of_true (h2.le.trans hlh) (by norm_num)
      · rw [if_neg h1, if_neg h2]
        exact iff_of_false (fun hph => h1 ⟨not_lt.1 h2, hph⟩) (by norm_num)

/-- Witness for C8 (amended) at a fully matching package and preferences. -/
theorem claim_C8_witness :
    RecommendationEngine.Reason.budget pkgFull.price
        ∈ RecommendationEngine.getReasons pkgFull prefsFull
      ↔ RecommendationEngine.budgetTerm prefsFull pkgFull ≠ 0 :=
  (claim_C8_amended pkgFull prefsFull).2.2.2.2 { lo := 100, hi := 500 } rfl (by norm_num)

/-- Loop accumulator `dotProduct += a[i] * b[i]` of `cosineSimilarity`. -/
def dotR (a b : List ℝ) : ℝ := (List.zipWith (fun x y => x * y) a b).sum

/-- Loop accumulator `normA += a[i] * a[i]` of `cosineSimilarity`. -/
def sumSq (a : List ℝ) : ℝ := (a.map (fun x => x * x)).sum

/-- `cosineSimilarity` as it appears, identically, in both
`FAISSSearchService` and `VectorRecommendationEngine`: 0 on length mismatch,
0 when either accumulated square norm is zero, else the normalized dot
product. -/
noncomputable def cosineSimilarity (a b : List ℝ) : ℝ :=
  if a.length ≠ b.length then 0
  else if sumSq a = 0 ∨ sumSq b = 0 then 0
  else dotR a b / (Real.sqrt (sumSq a) * Real.sqrt (sumSq b))

theorem sumSq_nonneg (a : List ℝ) : 0 ≤ sumSq a := by
  induction a with
  | nil => simp [sumSq]
  | cons x t ih =>
      have hx : 0 ≤ x * x := mul_self_nonneg x
      simp only [sumSq, List.map_cons, List.sum_cons]
      have ht : 0 ≤ (t.map (fun x => x * x)).sum := ih
      linarith

theorem dotR_sq_le (a : List ℝ) : ∀ b : List ℝ, (dotR a b) ^ 2 ≤ sumSq a * sumSq b := by
  induction a with
  | nil =>
      intro b
      have : dotR [] b = 0 := by simp [dotR]
      rw [this]
      have := mul_nonneg (sumSq_nonneg []) (sumSq_nonneg b)
      simpa using this
  | cons x t ih =>
      intro b
      cases b with
      | nil =>
          have : dotR (x :: t) [] = 0 := by simp [dotR]
          rw [this]
          have := mul_nonneg (sumSq_nonneg (x :: t)) (sumSq_nonneg [])
          simpa using this
      | cons y u =>
          have hd : dotR (x :: t) (y :: u) = x * y + dotR t u := by simp [dotR]
          have hsa : sumSq (x :: t) = x * x + sumSq t := by simp [sumSq]
          have hsb : sumSq (y :: u) = y * y + sumSq u := by simp [sumSq]
          rw [hd, hsa, hsb]
          have hAB := ih u
          have hA := sumSq_nonneg t
          have hB := sumSq_nonneg u
          rcases eq_or_lt_of_le hA with hA0 | hApos
          · have hd0 : dotR t u = 0 := by nlinarith [sq_nonneg (dotR t u)]
            rw [← hA0, hd0]
            nlinarith [sq_nonneg x, sq_nonneg y, mul_nonneg (mul_self_nonneg x) hB]
          · have h1 : 0 ≤ (sumSq t * y - x * dotR t u) ^ 2 := sq_nonneg _
            have h2 : 0 ≤ (x * x + sumSq t) * (sumSq t * sumSq u - dotR t u ^ 2) :=
              mul_nonneg (by nlinarith [sq_nonneg x]) (by linarith)
            nlinarith [h1, h2, mul_pos hApos hApos, hApos]

theorem abs_dotR_le (a b : List ℝ) :
    |dotR a b| ≤ Real.sqrt (sumSq a) * Real.sqrt (sumSq b) := by
  have h1 : |dotR a b| = Real.sqrt ((dotR a b) ^ 2) := (Real.sqrt_sq_eq_abs _).symm
  rw [h1, ← Real.sqrt_mul (sumSq_nonneg a)]
  exact Real.sqrt_le_sqrt (dotR_sq_le a b)

theorem cosineSimilarity_abs_le_one (a b : List ℝ) : |cosineSimilarity a b| ≤ 1 := by
  unfold cosineSimilarity
  split
  · simp
  · split
    · simp
    · rename_i hlen hz
      push_neg at hz
      have ha : 0 < sumSq a := lt_of_le_of_ne (sumSq_nonneg a) (Ne.symm hz.1)
      have hb : 0 < sumSq b := lt_of_le_of_ne (sumSq_nonneg b) (Ne.symm hz.2)
      have hden : 0 < Real.sqrt (sumSq a) * Real.sqrt (sumSq b) :=
        mul_pos (Real.sqrt_pos.2 ha) (Real.sqrt_pos.2 hb)
      rw [abs_div, div_le_one (by positivity)]
      have := abs_dotR_le a b
      calc |dotR a b| ≤ Real.sqrt (sumSq a) * Real.sqrt (sumSq b) := this
        _ = |Real.sqrt (sumSq a) * Real.sqrt (sumSq b)| := (abs_of_pos hden).symm

theorem cosineSimilarity_le_one (a b : List ℝ) : cosineSimilarity a b ≤ 1 :=
  (abs_le.1 (cosineSimilarity_abs_le_one a b)).2

theorem neg_one_le_cosineSimilarity (a b : List ℝ) : -1 ≤ cosineSimilarity a b :=
  (abs_le.1 (cosineSimilarity_abs_le_one a b)).1

/-- C3: `cosineSimilarity` never divides by zero: it returns 0 whenever the
two vectors have different lengths or either has zero magnitude, and its
value always lies in [-1, 1].  The identical function body appears in both
`FAISSSearchService` and `VectorRecommendationEngine`. -/
theorem claim_C3 (a b : List ℝ) :
    (a.length ≠ b.length → cosineSimilarity a b = 0)
    ∧ (sumSq a = 0 ∨ sumSq b = 0 → cosineSimilarity a b = 0)
    ∧ -1 ≤ cosineSimilarity a b ∧ cosineSimilarity a b ≤ 1 := by
  refine ⟨?_, ?_, neg_one_le_cosineSimilarity a b, cosineSimilarity_le_one a b⟩
  · intro h
    unfold cosineSimilarity
    rw [if_pos h]
  · intro h
    unfold cosineSimilarity
    by_cases hl : a.length ≠ b.length
    · rw [if_pos hl]
    · rw [if_neg hl, if_pos h]

/-- Witness for C3: a length mismatch, a zero-magnitude vector, and ordinary
vectors, all at concrete inputs. -/
theorem claim_C3_witness :
    cosineSimilarity [(1 : ℝ)] [1, 2] = 0
    ∧ cosineSimilarity [(0 : ℝ), 0] [3, 4] = 0
    ∧ (-1 ≤ cosineSimilarity [(1 : ℝ), 2] [3, 4]
        ∧ cosineSimilarity [(1 : ℝ), 2] [3, 4] ≤ 1) :=
  ⟨(claim_C3 [(1 : ℝ)] [1, 2]).1 (by simp),
   (claim_C3 [(0 : ℝ), 0] [3, 4]).2.1 (Or.inl (by simp [sumSq])),
   (claim_C3 [(1 : ℝ), 2] [3, 4]).2.2⟩

/-- JS `parseInt` on a non-empty digit run. -/
def digitsToNat (ds : List Char) : ℕ :=
  ds.foldl (fun n c => 10 * n + (c.toNat - 48)) 0

/-- First match of the JS regex `/(\d+)\s*(?:tok1|tok2|...)/` against a
string, returning the parsed capture group: scan left to right; at a digit,
take the maximal digit run, skip whitespace greedily, and require one of the
tokens to start right there (tokens begin with letters, so greedy whitespace
consumption is exact); otherwise resume one character further on. -/
def firstGroupMatch (tokens : List Str) : Str → Option ℕ
  | [] => none
  | c :: rest =>
      if c.isDigit then
        let run := (c :: rest).takeWhile Char.isDigit
        let afterWs := ((c :: rest).dropWhile Char.isDigit).dropWhile Char.isWhitespace
        if tokens.any (fun t => t <+: afterWs) then some (digitsToNat run)
        else firstGroupMatch tokens rest
      else firstGroupMatch tokens rest

namespace VectorRecommendationEngine

/-- `encodeLocation`: one flag per major city, substring match, both sides
lowercased. -/
def encodeLocation (location : Str) : List ℚ :=
  [("New York").toList, ("Los Angeles").toList, ("Boston").toList, ("Chicago").toList,
    ("Dallas").toList, ("San Francisco").toList, ("Denver").toList, ("Green Bay").toList].map
    fun city => if jsIncludes (lowerStr location) (lowerStr city) then 1 else 0

/-- `encodeSport`: one flag per sport, lowercased strict equality. -/
def encodeSport (sport : Str) : List ℚ :=
  [("Basketball").toList, ("Baseball").toList, ("Football").toList, ("Hockey").toList].map
    fun s => if lowerStr sport = lowerStr s then 1 else 0

/-- `encodeHospitalityLevel`: exact-key lookup with default 0.5. -/
def encodeHospitalityLevel (level : Str) : ℚ :=
  if level = ("Bronze").toList then 0.25
  else if level = ("Silver").toList then 0.5
  else if level = ("Gold").toList then 0.75
  else if level = ("Platinum").toList then 1.0
  else 0.5

/-- `encodeVenuePrestige`: case-sensitive substring match against the
prestigious-venue list, else neutral 0.5. -/
def encodeVenuePrestige (venue : Str) : ℚ :=
  if ([("Madison Square Garden").toList, ("Staples Center").toList, ("Fenway Park").toList,
      ("Lambeau Field").toList].any fun v => jsIncludes venue v) then 1.0 else 0.5

/-- `createPackageEmbedding`: 8 location + 4 sport + price tier +
hospitality level + venue prestige + date placeholder + availability. -/
def createPackageEmbedding (pkg : TicketPackage) : List ℚ :=
  encodeLocation pkg.location ++ encodeSport pkg.sportType
    ++ [min (pkg.price / 1000) 1]
    ++ [encodeHospitalityLevel pkg.hospitalityLevel]
    ++ [encodeVenuePrestige pkg.venue]
    ++ [0.5]
    ++ [min ((pkg.availableTickets : ℚ) / 50) 1]

/-- `extractLocationFromQuery`: flags over the already-lowercased query. -/
def extractLocationFromQuery (query : Str) : List ℚ :=
  [("new york").toList, ("los angeles").toList, ("boston").toList, ("chicago").toList,
    ("dallas").toList, ("san francisco").toList, ("denver").toList, ("green bay").toList].map
    fun city => if jsIncludes query city then 1 else 0

/-- `extractSportFromQuery`: direct sport flags, then team names set the
flag of their sport (via `indexOf`, a no-op when the sport is unknown). -/
def extractSportFromQuery (query : Str) : List ℚ :=
  let sports := [("basketball").toList, ("baseball").toList, ("football").toList,
    ("hockey").toList]
  let base : List ℚ := sports.map fun s => if jsIncludes query s then 1 else 0
  let teams : List (Str × Str) :=
    [(("knicks").toList, ("basketball").toList), (("lakers").toList, ("basketball").toList),
     (("celtics").toList, ("basketball").toList), (("bulls").toList, ("basketball").toList),
     (("yankees").toList, ("baseball").toList), (("red sox").toList, ("baseball").toList),
     (("cowboys").toList, ("football").toList), (("patriots").toList, ("football").toList)]
  teams.foldl
    (fun v ts => if jsIncludes query ts.1 then v.set (sports.indexOf ts.2) 1 else v) base

/-- `extractPricePreferenceFromQuery`. -/
def extractPricePreferenceFromQuery (query : Str) : ℚ :=
  if jsIncludes query (("cheap").toList) || jsIncludes query (("budget").toList)
      || jsIncludes query (("under").toList) then 0.2
  else if jsIncludes query (("premium").toList) || jsIncludes query (("expensive").toList)
      || jsIncludes query (("luxury").toList) then 0.9
  else if jsIncludes query (("vip").toList) then 1.0
  else 0.5

/-- `extractHospitalityFromQuery`. -/
def extractHospitalityFromQuery (query : Str) : ℚ :=
  if jsIncludes query (("vip").toList) || jsIncludes query (("premium").toList)
      || jsIncludes query (("luxury").toList) then 1.0
  else if jsIncludes query (("club").toList) || jsIncludes query (("lounge").toList) then 0.75
  else if jsIncludes query (("basic").toList) || jsIncludes query (("standard").toList)
    then 0.25
  else 0.5

/-- `extractGroupSizeInfluence`: regex `/(\d+)\s*(?:people|person|group|friends)/`. -/
def extractGroupSizeInfluence (query : Str) : ℚ :=
  match firstGroupMatch [("people").toList, ("person").toList, ("group").toList,
      ("friends").toList] query with
  | some size => min ((size : ℚ) / 10) 1
  | none => 0.5

/-- `createQueryEmbedding`: the 17-dimensional query-side vector. -/
def createQueryEmbedding (query : Str) : List ℚ :=
  let lowerQuery := lowerStr query
  extractLocationFromQuery lowerQuery ++ extractSportFromQuery lowerQuery
    ++ [extractPricePreferenceFromQuery lowerQuery]
    ++ [extractHospitalityFromQuery lowerQuery]
    ++ [0.5]
    ++ [0.5]
    ++ [extractGroupSizeInfluence lowerQuery]

/-- Reason strings of `VectorRecommendationEngine.generateReasons`, with
their interpolated data. -/
inductive VReason
  | location (loc : Str)
  | sport (sportType : Str)
  | budgetFriendly (price : ℚ)
  | premiumExperience (level : Str)
  | vipAccess
  | excellent
  | percent (n : ℤ)
deriving DecidableEq

/-- `generateReasons`: rule-based justifications, with the percent-match
fallback when no rule fires. -/
noncomputable def generateReasons (query : Str) (pkg : TicketPackage) (similarity : ℝ) :
    List VReason :=
  let lowerQuery := lowerStr query
  let rs : List VReason :=
    (if jsIncludes lowerQuery (lowerStr pkg.location) then [VReason.location pkg.location]
      else [])
    ++ (if jsIncludes lowerQuery (lowerStr pkg.sportType) then [VReason.sport pkg.sportType]
      else [])
    ++ (if (jsIncludes lowerQuery (("budget").toList)
          || jsIncludes lowerQuery (("cheap").toList)) && decide (pkg.price < 200)
        then [VReason.budgetFriendly pkg.price] else [])
    ++ (if (jsIncludes lowerQuery (("premium").toList)
          || jsIncludes lowerQuery (("vip").toList))
          && (pkg.hospitalityLevel = ("Platinum").toList
            || pkg.hospitalityLevel = ("Gold").toList)
        then [VReason.premiumExperience pkg.hospitalityLevel] else [])
    ++ (if jsIncludes lowerQuery (("vip").toList)
          && jsIncludes pkg.hospitalityType (("VIP").toList)
        then [VReason.vipAccess] else [])
    ++ (if similarity > 0.8 then [VReason.excellent] else [])
  if rs.isEmpty then [VReason.percent (round (similarity * 100))] else rs

/-- The `packageEmbeddings` map built by `initializeEmbeddings`, as an
association list; `Map.get` keeps the last `set` for a duplicated id, hence
the lookup on the reversed list. -/
def packageEmbeddings (packages : List TicketPackage) : List (Str × List ℚ) :=
  packages.map fun p => (p.id, createPackageEmbedding p)

/-- `VectorRecommendationEngine.findRecommendationsByQuery`: cosine score
every package against the query embedding, map to a 0–100 integer, keep
scores strictly above 30, sort descending, take 5. -/
noncomputable def findRecommendationsByQuery (packages : List TicketPackage) (query : Str) :
    List (RecommendationScore VReason) :=
  let queryEmbedding := createQueryEmbedding query
  let scores : List (RecommendationScore VReason) := packages.filterMap fun pkg =>
    ((packageEmbeddings packages).reverse.lookup pkg.id).map fun emb =>
      let similarity := cosineSimilarity (queryEmbedding.map fun q => (q : ℝ))
        (emb.map fun q => (q : ℝ))
      RecommendationScore.mk pkg (round (similarity * 100))
        (generateReasons query pkg similarity)
  (((scores.filter fun r => 30 < r.score).mergeSort fun a b =>
    decide (b.score ≤ a.score)).take 5)

end VectorRecommendationEngine

/-- First value of an ordered keyword table whose key occurs in `s`
(JS `for..of Object.entries` with `includes`). -/
def firstIncl {α : Type} (s : Str) : List (Str × α) → Option α
  | [] => none
  | (k, v) :: rest => if jsIncludes s k then some v else firstIncl s rest

namespace FAISSSearchService

/-- `encodeLocationWithProximity`: lowercased substring lookup in the fixed
city table (8 one-hot dimensions plus two regional-proximity scalars),
neutral block when unmatched. -/
def encodeLocationWithProximity (location : Str) : List ℚ :=
  (firstIncl (lowerStr location)
    [(("new york").toList, [1, 0, 0, 0, 0, 0, 0, 0, 0.8, 0.3]),
     (("los angeles").toList, [0, 1, 0, 0, 0, 0, 0, 0, 0.2, 0.9]),
     (("boston").toList, [0, 0, 1, 0, 0, 0, 0, 0, 0.9, 0.1]),
     (("chicago").toList, [0, 0, 0, 1, 0, 0, 0, 0, 0.4, 0.4]),
     (("dallas").toList, [0, 0, 0, 0, 1, 0, 0, 0, 0.1, 0.6]),
     (("san francisco").toList, [0, 0, 0, 0, 0, 1, 0, 0, 0.1, 0.8]),
     (("denver").toList, [0, 0, 0, 0, 0, 0, 1, 0, 0.2, 0.2]),
     (("green bay").toList, [0, 0, 0, 0, 0, 0, 0, 1, 0.3, 0.1])]).getD
    [0, 0, 0, 0, 0, 0, 0, 0, 0.5, 0.5]

/-- The sport-feature table shared by the catalog and query sport encoders. -/
def sportFeatures : List (Str × List ℚ) :=
  [(("basketball").toList, [1, 0, 0, 0, 0.9, 0.8, 0.7]),
   (("baseball").toList, [0, 1, 0, 0, 0.6, 0.9, 0.8]),
   (("football").toList, [0, 0, 1, 0, 0.7, 0.6, 0.9]),
   (("hockey").toList, [0, 0, 0, 1, 0.8, 0.7, 0.8])]

/-- `encodeSportWithTeams` (catalog side): lowercased substring lookup. -/
def encodeSportWithTeams (sport : Str) : List ℚ :=
  (firstIncl (lowerStr sport) sportFeatures).getD [0, 0, 0, 0, 0.5, 0.5, 0.5]

/-- `encodePriceFeatures`: normalized price, tier flags, log-scaled price. -/
noncomputable def encodePriceFeatures (price : ℚ) : List ℝ :=
  [((min (price / 1000) 1 : ℚ) : ℝ),
   if price < 100 then 1 else 0,
   if 100 ≤ price ∧ price < 500 then 1 else 0,
   if 500 ≤ price ∧ price < 1000 then 1 else 0,
   if 1000 ≤ price then 1 else 0,
   Real.log ((price : ℝ) + 1) / 10]

/-- `encodeHospitalityFeatures`: ordinal level scalar and keyword flags. -/
def encodeHospitalityFeatures (level type' : Str) : List ℚ :=
  (if level = ("Bronze").toList then 0.25
   else if level = ("Silver").toList then 0.5
   else if level = ("Gold").toList then 0.75
   else if level = ("Platinum").toList then 1.0
   else 0.5)
  :: [if jsIncludes (lowerStr type') (("vip").toList) then 1 else 0,
      if jsIncludes (lowerStr type') (("club").toList) then 1 else 0,
      if jsIncludes (lowerStr type') (("premium").toList) then 1 else 0,
      if jsIncludes (lowerStr type') (("standard").toList) then 1 else 0]

/-- `encodeVenueFeatures`: prestige indicator and venue-type keywords. -/
def encodeVenueFeatures (venue : Str) : List ℚ :=
  [if [("madison square garden").toList, ("staples center").toList, ("fenway park").toList,
      ("lambeau field").toList, ("yankee stadium").toList, ("td garden").toList].any
      (fun v => jsIncludes (lowerStr venue) v) then 1 else 0.5,
   if jsIncludes (lowerStr venue) (("center").toList)
     || jsIncludes (lowerStr venue) (("arena").toList) then 1 else 0,
   if jsIncludes (lowerStr venue) (("stadium").toList) then 1 else 0,
   if jsIncludes (lowerStr venue) (("field").toList)
     || jsIncludes (lowerStr venue) (("park").toList) then 1 else 0]

/-- `encodeDateFeatures`: temporal features of the event date relative to
the clock reading `now` (JS `new Date()`). -/
def encodeDateFeatures (date : JSDate) (now : JSDate) : List ℚ :=
  let daysDiff := |date.time - now.time| / (1000 * 60 * 60 * 24)
  [min (daysDiff / 365) 1,
   (date.month : ℚ) / 12,
   (date.day : ℚ) / 7,
   if daysDiff < 7 then 1 else 0,
   if daysDiff < 30 then 1 else 0]

/-- `encodeAvailabilityFeatures`. -/
def encodeAvailabilityFeatures (available : ℕ) : List ℚ :=
  [min ((available : ℚ) / 100) 1,
   if 50 < available then 1 else 0,
   if available < 10 then 1 else 0,
   if available = 0 then 1 else 0]

/-- `encodeTextFeatures`: description keyword flags. -/
def encodeTextFeatures (description : Str) : List ℚ :=
  [("luxury").toList, ("premium").toList, ("exclusive").toList, ("family").toList,
    ("group").toList, ("corporate").toList, ("special").toList].map
    fun keyword => if jsIncludes (lowerStr description) keyword then 1 else 0

/-- `encodeSeatingFeatures`. -/
def encodeSeatingFeatures (category : Str) : List ℚ :=
  [if jsIncludes (lowerStr category) (("floor").toList)
     || jsIncludes (lowerStr category) (("court").toList) then 1 else 0,
   if jsIncludes (lowerStr category) (("lower").toList) then 1 else 0,
   if jsIncludes (lowerStr category) (("upper").toList) then 1 else 0,
   if jsIncludes (lowerStr category) (("suite").toList)
     || jsIncludes (lowerStr category) (("box").toList) then 1 else 0,
   if jsIncludes (lowerStr category) (("club").toList) then 1 else 0]

/-- Pad with zeros to the embedding dimension and truncate
(`while (features.length < dim) push(0); slice(0, dim)`). -/
def padTo (n : ℕ) (l : List ℝ) : List ℝ := (l ++ List.replicate (n - l.length) 0).take n

/-- `createPackageEmbedding`: concatenated feature blocks, padded to 384. -/
noncomputable def createPackageEmbedding (now : JSDate) (pkg : TicketPackage) : List ℝ :=
  padTo 384
    ((encodeLocationWithProximity pkg.location).map (fun q => (q : ℝ))
      ++ (encodeSportWithTeams pkg.sportType).map (fun q => (q : ℝ))
      ++ encodePriceFeatures pkg.price
      ++ (encodeHospitalityFeatures pkg.hospitalityLevel pkg.hospitalityType).map
          (fun q => (q : ℝ))
      ++ (encodeVenueFeatures pkg.venue).map (fun q => (q : ℝ))
      ++ (encodeDateFeatures pkg.date now).map (fun q => (q : ℝ))
      ++ (encodeAvailabilityFeatures pkg.availableTickets).map (fun q => (q : ℝ))
      ++ (encodeTextFeatures pkg.description).map (fun q => (q : ℝ))
      ++ (encodeSeatingFeatures pkg.seatingCategory).map (fun q => (q : ℝ)))

/-- `extractLocationFromQuery`: like the catalog encoder but with the extra
`nyc` / `la` / `sf` aliases, over the already-lowercased query. -/
def extractLocationFromQuery (query : Str) : List ℚ :=
  (firstIncl query
    [(("new york").toList, [1, 0, 0, 0, 0, 0, 0, 0, 0.8, 0.3]),
     (("nyc").toList, [1, 0, 0, 0, 0, 0, 0, 0, 0.8, 0.3]),
     (("los angeles").toList, [0, 1, 0, 0, 0, 0, 0, 0, 0.2, 0.9]),
     (("la").toList, [0, 1, 0, 0, 0, 0, 0, 0, 0.2, 0.9]),
     (("boston").toList, [0, 0, 1, 0, 0, 0, 0, 0, 0.9, 0.1]),
     (("chicago").toList, [0, 0, 0, 1, 0, 0, 0, 0, 0.4, 0.4]),
     (("dallas").toList, [0, 0, 0, 0, 1, 0, 0, 0, 0.1, 0.6]),
     (("san francisco").toList, [0, 0, 0, 0, 0, 1, 0, 0, 0.1, 0.8]),
     (("sf").toList, [0, 0, 0, 0, 0, 1, 0, 0, 0.1, 0.8]),
     (("denver").toList, [0, 0, 0, 0, 0, 0, 1, 0, 0.2, 0.2]),
     (("green bay").toList, [0, 0, 0, 0, 0, 0, 0, 1, 0.3, 0.1])]).getD
    [0, 0, 0, 0, 0, 0, 0, 0, 0.5, 0.5]

/-- `extractSportFromQuery`: direct sport mentions first, then team names
resolved through the sport table (exact key lookup with neutral default). -/
def extractSportFromQuery (query : Str) : List ℚ :=
  match firstIncl query sportFeatures with
  | some f => f
  | none =>
      match firstIncl query
        [(("knicks").toList, ("basketball").toList),
         (("lakers").toList, ("basketball").toList),
         (("celtics").toList, ("basketball").toList),
         (("bulls").toList, ("basketball").toList),
         (("yankees").toList, ("baseball").toList),
         (("red sox").toList, ("baseball").toList),
         (("dodgers").toList, ("baseball").toList),
         (("cowboys").toList, ("football").toList),
         (("patriots").toList, ("football").toList),
         (("packers").toList, ("football").toList)] with
      | some sp => (sportFeatures.lookup sp).getD [0, 0, 0, 0, 0.5, 0.5, 0.5]
      | none => [0, 0, 0, 0, 0.5, 0.5, 0.5]

/-- The `(priceLevel, budget, mid, premium, luxury)` data of
`extractPricePreferences`. -/
def pricePrefData (query : Str) : ℚ × ℚ × ℚ × ℚ × ℚ :=
  if jsIncludes query (("cheap").toList) || jsIncludes query (("budget").toList)
      || jsIncludes query (("affordable").toList) then (0.2, 1, 0, 0, 0)
  else if jsIncludes query (("premium").toList) || jsIncludes query (("expensive").toList)
    then (0.8, 0, 0, 1, 0)
  else if jsIncludes query (("vip").toList) || jsIncludes query (("luxury").toList)
    then (1, 0, 0, 0, 1)
  else if jsIncludes query (("mid").toList) || jsIncludes query (("moderate").toList)
    then (0.5, 0, 1, 0, 0)
  else (0.5, 0, 0, 0, 0)

/-- `extractPricePreferences`: price level, tier flags, log-scaled level. -/
noncomputable def extractPricePreferences (query : Str) : List ℝ :=
  [((pricePrefData query).1 : ℝ),
   ((pricePrefData query).2.1 : ℝ),
   ((pricePrefData query).2.2.1 : ℝ),
   ((pricePrefData query).2.2.2.1 : ℝ),
   ((pricePrefData query).2.2.2.2 : ℝ),
   Real.log (((pricePrefData query).1 : ℝ) * 1000 + 1) / 10]

/-- `extractHospitalityPreferences`. -/
def extractHospitalityPreferences (query : Str) : List ℚ :=
  if jsIncludes query (("vip").toList) then [1, 1, 0, 0, 0]
  else if jsIncludes query (("club").toList) then [0.75, 0, 1, 0, 0]
  else if jsIncludes query (("premium").toList) then [0.75, 0, 0, 1, 0]
  else if jsIncludes query (("standard").toList) || jsIncludes query (("basic").toList)
    then [0.25, 0, 0, 0, 1]
  else [0.5, 0, 0, 0, 0]

/-- `extractVenuePreferences`. -/
def extractVenuePreferences (query : Str) : List ℚ :=
  [0.5,
   if jsIncludes query (("center").toList) || jsIncludes query (("arena").toList)
     then 1 else 0,
   if jsIncludes query (("stadium").toList) then 1 else 0,
   if jsIncludes query (("field").toList) || jsIncludes query (("park").toList)
     then 1 else 0]

/-- `extractDatePreferences`: coarse temporal preference plus the current
month and weekday of the clock reading `now` (JS `new Date()`). -/
def extractDatePreferences (query : Str) (now : JSDate) : List ℚ :=
  [if jsIncludes query (("tonight").toList) || jsIncludes query (("today").toList) then 0.1
   else if jsIncludes query (("this week").toList) then 0.2
   else if jsIncludes query (("this month").toList) then 0.3
   else if jsIncludes query (("next month").toList) then 0.5
   else 0.5,
   (now.month : ℚ) / 12,
   (now.day : ℚ) / 7,
   if jsIncludes query (("week").toList) then 1 else 0,
   if jsIncludes query (("month").toList) then 1 else 0]

/-- `extractGroupPreferences`: regex
`/(\d+)\s*(?:people|person|group|friends|family)/` plus keyword flags. -/
def extractGroupPreferences (query : Str) : List ℚ :=
  let gm := firstGroupMatch [("people").toList, ("person").toList, ("group").toList,
    ("friends").toList, ("family").toList] query
  let size : ℚ := match gm with
    | some gs => min ((gs : ℚ) / 10) 1
    | none => 0.5
  let availability : ℚ := match gm with
    | some gs => if 4 < gs then 0.8 else 0.5
    | none => 0.5
  [size,
   if jsIncludes query (("group").toList) then 1 else 0,
   if jsIncludes query (("family").toList) then 1 else 0,
   if 0.5 < availability then 1 else 0]

/-- `extractIntentFeatures`. -/
def extractIntentFeatures (query : Str) : List ℚ :=
  [if jsIncludes query (("luxury").toList) then 1 else 0,
   if jsIncludes query (("family").toList) then 1 else 0,
   if jsIncludes query (("corporate").toList) then 1 else 0,
   if jsIncludes query (("date").toList) || jsIncludes query (("romantic").toList)
     then 1 else 0,
   if jsIncludes query (("celebration").toList) || jsIncludes query (("special").toList)
     then 1 else 0,
   if jsIncludes query (("business").toList) then 1 else 0,
   if jsIncludes query (("entertainment").toList) then 1 else 0]

/-- `extractSeatingPreferences`. -/
def extractSeatingPreferences (query : Str) : List ℚ :=
  [if jsIncludes query (("floor").toList) || jsIncludes query (("court").toList)
     then 1 else 0,
   if jsIncludes query (("lower").toList) then 1 else 0,
   if jsIncludes query (("upper").toList) then 1 else 0,
   if jsIncludes query (("suite").toList) || jsIncludes query (("box").toList)
     then 1 else 0,
   if jsIncludes query (("club").toList) then 1 else 0]

/-- `createQueryEmbedding`: concatenated query-side blocks, padded to 384. -/
noncomputable def createQueryEmbedding (now : JSDate) (query : Str) : List ℝ :=
  let lowerQuery := lowerStr query
  padTo 384
    ((extractLocationFromQuery lowerQuery).map (fun q => (q : ℝ))
      ++ (extractSportFromQuery lowerQuery).map (fun q => (q : ℝ))
      ++ extractPricePreferences lowerQuery
      ++ (extractHospitalityPreferences lowerQuery).map (fun q => (q : ℝ))
      ++ (extractVenuePreferences lowerQuery).map (fun q => (q : ℝ))
      ++ (extractDatePreferences lowerQuery now).map (fun q => (q : ℝ))
      ++ (extractGroupPreferences lowerQuery).map (fun q => (q : ℝ))
      ++ (extractIntentFeatures lowerQuery).map (fun q => (q : ℝ))
      ++ (extractSeatingPreferences lowerQuery).map (fun q => (q : ℝ)))

/-- Reason strings of `FAISSSearchService.generateReasons`, with their
interpolated data. -/
inductive FReason
  | location (loc : Str)
  | sport (sportType : Str)
  | budgetFriendly (price : ℚ)
  | premiumExperience (level : Str)
  | vipAccess
  | excellent
  | good
  | percent (n : ℤ)
deriving DecidableEq

/-- `FAISSSearchService.generateReasons`. -/
noncomputable def generateReasons (query : Str) (pkg : TicketPackage) (similarity : ℝ) :
    List FReason :=
  let lowerQuery := lowerStr query
  let rs : List FReason :=
    (if jsIncludes lowerQuery (lowerStr pkg.location) then [FReason.location pkg.location]
      else [])
    ++ (if jsIncludes lowerQuery (lowerStr pkg.sportType) then [FReason.sport pkg.sportType]
      else [])
    ++ (if (jsIncludes lowerQuery (("budget").toList)
          || jsIncludes lowerQuery (("cheap").toList)) && decide (pkg.price < 200)
        then [FReason.budgetFriendly pkg.price] else [])
    ++ (if (jsIncludes lowerQuery (("premium").toList)
          || jsIncludes lowerQuery (("vip").toList))
          && (pkg.hospitalityLevel = ("Platinum").toList
            || pkg.hospitalityLevel = ("Gold").toList)
        then [FReason.premiumExperience pkg.hospitalityLevel] else [])
    ++ (if jsIncludes lowerQuery (("vip").toList)
          && jsIncludes pkg.hospitalityType (("VIP").toList)
        then [FReason.vipAccess] else [])
    ++ (if similarity > 0.8 then [FReason.excellent]
        else if similarity > 0.6 then [FReason.good] else [])
  if rs.isEmpty then [FReason.percent (round (similarity * 100))] else rs

/-- The abstract FAISS index: a search function from a query vector and `k`
to labels paired with inner-product distances, or an error.  `faiss-node`
is an external native library; only its interface is modelled. -/
def Backend : Type := List ℝ → ℕ → Except Str (List (ℤ × ℝ))

/-- The state of a `FAISSSearchService` instance: the catalog, the clock
reading at construction (used by the cached package embeddings), and the
index backend — `none` models `isInitialized === false`, i.e. a missing or
failed `faiss-node` initialization. -/
structure ServiceState where
  packages : List TicketPackage
  initTime : JSDate
  backend : Option Backend

/-- The cached `packageEmbeddings` map, as an association list (`Map.get`
keeps the last `set` for a duplicated id, hence lookups reverse it). -/
noncomputable def packageEmbeddingsMap (st : ServiceState) : List (Str × List ℝ) :=
  st.packages.map fun p => (p.id, createPackageEmbedding st.initTime p)

/-- `FAISSSearchService.fallbackSearch`: the source is a synchronous method
that calls the `async` `createQueryEmbedding` WITHOUT `await`, so its
`queryEmbedding` is a `Promise`, not a number array (the promise is bound
below but unusable as a vector).  `cosineSimilarity` therefore compares
`undefined` (`Promise.length`) with each package embedding's length, its
length guard fires, and every similarity is the guard's 0; each package is
then scored `Math.round(0 * 100)`, and the `score > 30` filter, the
descending sort and the truncation to `k` run over those zero scores. -/
noncomputable def fallbackSearch (st : ServiceState) (queryTime : JSDate) (query : Str)
    (k : ℕ) : List (RecommendationScore FReason) :=
  let _queryEmbedding := createQueryEmbedding queryTime query
  let scores : List (RecommendationScore FReason) := st.packages.filterMap fun pkg =>
    ((packageEmbeddingsMap st).reverse.lookup pkg.id).map fun _emb =>
      let similarity : ℝ := 0
      RecommendationScore.mk pkg (round (similarity * 100))
        (generateReasons query pkg similarity)
  (((scores.filter fun r => 30 < r.score).mergeSort fun a b =>
    decide (b.score ≤ a.score)).take k)

/-- `FAISSSearchService.findRecommendationsByQuery`: use the index backend
when initialized, falling back to the linear scan when it is missing or its
search fails; index results are mapped back to catalog items by label,
scored by `round(max(0, distance * 100))`, and filtered at 30. -/
noncomputable def findRecommendationsByQuery (st : ServiceState) (queryTime : JSDate)
    (query : Str) (k : ℕ) : List (RecommendationScore FReason) :=
  match st.backend with
  | none => fallbackSearch st queryTime query k
  | some search =>
      match search (createQueryEmbedding queryTime query) k with
      | Except.error _ => fallbackSearch st queryTime query k
      | Except.ok results =>
          (results.filterMap fun lr =>
            if h : 0 ≤ lr.1 ∧ lr.1.toNat < st.packages.length then
              some (RecommendationScore.mk (st.packages.get ⟨lr.1.toNat, h.2⟩)
                (round (max 0 (lr.2 * 100)))
                (generateReasons query (st.packages.get ⟨lr.1.toNat, h.2⟩) lr.2))
            else none).filter fun r => 30 < r.score

end FAISSSearchService

theorem all_self_filter {α : Type} (p : α → Bool) (l : List α) :
    (l.filter p).all p = true := by
  rw [List.all_eq_true]
  intro x hx
  exact List.of_mem_filter hx

theorem all_filter_sort_take {α : Type} (p : α → Bool) (le : α → α → Bool)
    (l : List α) (n : ℕ) : (((l.filter p).mergeSort le).take n).all p = true := by
  rw [List.all_eq_true]
  intro x hx
  exact List.of_mem_filter (List.mem_mergeSort.1 (List.mem_of_mem_take hx))

theorem mem_of_take_sort_filter {α : Type} {x : α} {p : α → Bool} {le : α → α → Bool}
    {l : List α} {n : ℕ} (hx : x ∈ ((l.filter p).mergeSort le).take n) :
    x ∈ l ∧ p x = true := by
  have h1 := List.mem_mergeSort.1 (List.mem_of_mem_take hx)
  exact ⟨List.mem_of_mem_filter h1, List.of_mem_filter h1⟩

/-- The linear fallback scan always returns the empty list: the un-awaited
query-embedding promise zeroes every similarity, so every candidate scores
`round(0 * 100) = 0` and the `score > 30` filter removes it. -/
theorem fallbackSearch_eq_nil (st : FAISSSearchService.ServiceState) (queryTime : JSDate)
    (query : Str) (k : ℕ) :
    FAISSSearchService.fallbackSearch st queryTime query k = [] := by
  simp only [FAISSSearchService.fallbackSearch]
  have h : List.filter
      (fun r : RecommendationScore FAISSSearchService.FReason => decide (30 < r.score))
      (st.packages.filterMap fun pkg =>
        ((FAISSSearchService.packageEmbeddingsMap st).reverse.lookup pkg.id).map fun _emb =>
          RecommendationScore.mk pkg (round ((0 : ℝ) * 100))
            (FAISSSearchService.generateReasons query pkg 0)) = [] := by
    rw [List.filter_eq_nil_iff]
    intro r hr
    rw [List.mem_filterMap] at hr
    obtain ⟨p, hp, hf⟩ := hr
    rw [Option.map_eq_some'] at hf
    obtain ⟨emb, _hemb, hrval⟩ := hf
    rw [← hrval]
    simp [round_zero]
  rw [h, List.mergeSort_nil, List.take_nil]

/-- Every result of the FAISS entry point passes its `score > 30` filter,
on the index path and on the fallback path alike. -/
theorem faiss_output_gt30 (st : FAISSSearchService.ServiceState) (queryTime : JSDate)
    (query : Str) (k : ℕ) :
    ((FAISSSearchService.findRecommendationsByQuery st queryTime query k).all
      fun r => decide (30 < r.score)) = true := by
  cases hb : st.backend with
  | none =>
      simp only [FAISSSearchService.findRecommendationsByQuery, hb]
      exact all_filter_sort_take _ _ _ _
  | some bk =>
      cases hs : bk (FAISSSearchService.createQueryEmbedding queryTime query) k with
      | error e =>
          simp only [FAISSSearchService.findRecommendationsByQuery, hb, hs]
          exact all_filter_sort_take _ _ _ _
      | ok res =>
          simp only [FAISSSearchService.findRecommendationsByQuery, hb, hs]
          exact all_self_filter _ _

/-- C4: the threshold invariant: every item returned by the query-ranking
operations — `VectorRecommendationEngine.findRecommendationsByQuery`, the
`FAISSSearchService` linear fallback, and `FAISSSearchService.
findRecommendationsByQuery` on both the index and the fallback path —
carries a mapped score strictly greater than 30. -/
theorem claim_C4 (packages : List TicketPackage) (query : Str)
    (st : FAISSSearchService.ServiceState) (queryTime : JSDate) (k : ℕ) :
    ((VectorRecommendationEngine.findRecommendationsByQuery packages query).all
      fun r => decide (30 < r.score)) = true
    ∧ ((FAISSSearchService.fallbackSearch st queryTime query k).all
      fun r => decide (30 < r.score)) = true
    ∧ ((FAISSSearchService.findRecommendationsByQuery st queryTime query k).all
      fun r => decide (30 < r.score)) = true := by
  exact ⟨all_filter_sort_take _ _ _ _, all_filter_sort_take _ _ _ _,
    faiss_output_gt30 st queryTime query k⟩

/-- C5: the K-bound: the attribute matcher and the vector engine return at
most 5 items (their fixed default), the FAISS fallback at most `k`, and the
FAISS entry point at most `k` whenever the index backend honours its `k`
argument (the `faiss-node` search contract). -/
theorem claim_C5 (packages : List TicketPackage) (prefs : UserPreferences) (query : Str)
    (st : FAISSSearchService.ServiceState) (queryTime : JSDate) (k : ℕ) :
    (RecommendationEngine.findRecommendations packages prefs).length ≤ 5
    ∧ (VectorRecommendationEngine.findRecommendationsByQuery packages query).length ≤ 5
    ∧ (FAISSSearchService.fallbackSearch st queryTime query k).length ≤ k
    ∧ ((∀ bk, st.backend = some bk →
          ∀ emb k' res, bk emb k' = Except.ok res → res.length ≤ k') →
        (FAISSSearchService.findRecommendationsByQuery st queryTime query k).length ≤ k) := by
  refine ⟨List.length_take_le _ _, List.length_take_le _ _, List.length_take_le _ _, ?_⟩
  intro hbk
  cases hb : st.backend with
  | none =>
      simp only [FAISSSearchService.findRecommendationsByQuery, hb]
      exact List.length_take_le _ _
  | some bk =>
      cases hs : bk (FAISSSearchService.createQueryEmbedding queryTime query) k with
      | error e =>
          simp only [FAISSSearchService.findRecommendationsByQuery, hb, hs]
          exact List.length_take_le _ _
      | ok res =>
          simp only [FAISSSearchService.findRecommendationsByQuery, hb, hs]
          calc (List.filter _ (List.filterMap _ res)).length
              ≤ (List.filterMap _ res).length := List.length_filter_le _ _
            _ ≤ res.length := List.length_filterMap_le _ _
            _ ≤ k := hbk bk hb _ k res hs

/-- C7: the FAISS entry point never surfaces an index-backend failure: with
no initialized index it returns exactly the linear fallback result, and so
does it when the index search returns an error. -/
theorem claim_C7 (st : FAISSSearchService.ServiceState) (queryTime : JSDate)
    (query : Str) (k : ℕ) :
    (st.backend = none →
      FAISSSearchService.findRecommendationsByQuery st queryTime query k
        = FAISSSearchService.fallbackSearch st queryTime query k)
    ∧ (∀ bk e, st.backend = some bk →
        bk (FAISSSearchService.createQueryEmbedding queryTime query) k = Except.error e →
        FAISSSearchService.findRecommendationsByQuery st queryTime query k
          = FAISSSearchService.fallbackSearch st queryTime query k) := by
  constructor
  · intro h
    simp only [FAISSSearchService.findRecommendationsByQuery, h]
  · intro bk e hb he
    simp only [FAISSSearchService.findRecommendationsByQuery, hb, he]

/-- Empty structured preferences. -/
def noPrefs : UserPreferences :=
  { location := none, sport := none, hospitalityType := none, date := none,
    peopleCount := none, budget := none }

/-- A backend whose search always fails. -/
def failingBackend : FAISSSearchService.Backend :=
  fun _ _ => Except.error (("index search failed").toList)

/-- A clock reading used by concrete FAISS service states. -/
def dateNow : JSDate := { time := 1709500000000, month := 2, day := 1 }

/-- A concrete service state over an empty catalog whose index search
always throws. -/
def stFailing : FAISSSearchService.ServiceState :=
  { packages := [], initTime := dateNow, backend := some failingBackend }

/-- Witness for C7: a concrete failing backend falls back to the linear
scan. -/
theorem claim_C7_witness :
    FAISSSearchService.findRecommendationsByQuery stFailing dateNow (("vip").toList) 5
      = FAISSSearchService.fallbackSearch stFailing dateNow (("vip").toList) 5 :=
  (claim_C7 stFailing dateNow (("vip").toList) 5).2 failingBackend
    (("index search failed").toList) rfl rfl

/-- Witness for C5: the length bound at a concrete state whose backend
always errors (its hypothesis holds vacuously). -/
theorem claim_C5_witness :
    (FAISSSearchService.findRecommendationsByQuery stFailing dateNow
      (("vip").toList) 5).length ≤ 5 := by
  refine (claim_C5 [] noPrefs (("vip").toList) stFailing dateNow 5).2.2.2 ?_
  intro bk hb emb k' res hres
  cases hb
  simp [failingBackend] at hres

/-- C9 counterexample: "Dallas" breaks encoder alignment.  On the query
path the `la` alias is checked before `dallas`, and `"dallas"` contains
`"la"` as a substring, so the query encoder returns the Los Angeles block
while the catalog encoder returns the Dallas block. -/
theorem claim_C9_counterexample :
    FAISSSearchService.encodeLocationWithProximity (("Dallas").toList)
      ≠ FAISSSearchService.extractLocationFromQuery (lowerStr (("Dallas").toList))
    ∧ FAISSSearchService.extractLocationFromQuery (lowerStr (("Dallas").toList))
      = [0, 1, 0, 0, 0, 0, 0, 0, 0.2, 0.9] := by
  constructor
  · intro h
    have e1 : FAISSSearchService.encodeLocationWithProximity (("Dallas").toList)
        = [0, 0, 0, 0, 1, 0, 0, 0, 0.1, 0.6] := rfl
    have e2 : FAISSSearchService.extractLocationFromQuery (lowerStr (("Dallas").toList))
        = [0, 1, 0, 0, 0, 0, 0, 0, 0.2, 0.9] := rfl
    rw [e1, e2] at h
    injection h with h1 h2
    injection h2 with h2 h3
    exact absurd h2 (by norm_num)
  · rfl

/-- C9 (amended): for every city of the fixed location table except
"Dallas", encoding through the catalog path and through the query path (on
the lowercased text) yields the identical location sub-block. -/
theorem claim_C9_amended :
    ∀ c ∈ [("New York").toList, ("Los Angeles").toList, ("Boston").toList,
      ("Chicago").toList, ("San Francisco").toList, ("Denver").toList,
      ("Green Bay").toList],
      FAISSSearchService.encodeLocationWithProximity c
        = FAISSSearchService.extractLocationFromQuery (lowerStr c) := by
  intro c hc
  fin_cases hc <;> rfl

/-- Witness for C9 (amended) at the city of New York. -/
theorem claim_C9_witness :
    FAISSSearchService.encodeLocationWithProximity (("New York").toList)
      = FAISSSearchService.extractLocationFromQuery (lowerStr (("New York").toList)) :=
  claim_C9_amended (("New York").toList) (by decide)

/-- The fully matching concrete instance scores 30+25+20+15+10+20 = 120. -/
theorem pkgFull_score : RecommendationEngine.calculateScore pkgFull prefsFull = 120 := by
  have h1 : RecommendationEngine.locationMatch prefsFull pkgFull = true := rfl
  have h2 : RecommendationEngine.sportMatch prefsFull pkgFull = true := rfl
  have h3 : RecommendationEngine.hospitalityMatch prefsFull pkgFull = true := rfl
  have h4 : RecommendationEngine.peopleMatch prefsFull pkgFull = true := rfl
  have hd : RecommendationEngine.dateTerm prefsFull pkgFull = 15 := by
    norm_num [RecommendationEngine.dateTerm, prefsFull, pkgFull]
  have hb : RecommendationEngine.budgetTerm prefsFull pkgFull = 20 := by
    norm_num [RecommendationEngine.budgetTerm, prefsFull, pkgFull]
  unfold RecommendationEngine.calculateScore
  simp only [RecommendationEngine.locationTerm, RecommendationEngine.sportTerm,
    RecommendationEngine.hospitalityTerm, RecommendationEngine.peopleTerm,
    h1, h2, h3, h4, if_true, hd, hb]
  norm_num [round_eq]

/-- C1 counterexample: the attribute matcher can return a score of 120,
outside [0, 100] — a package matching the location, sport, hospitality,
date, party-size and budget preferences at once collects every weight. -/
theorem claim_C1_counterexample :
    ¬ (((RecommendationEngine.findRecommendations [pkgFull] prefsFull).all
      fun r => decide (0 ≤ r.score ∧ r.score ≤ 100)) = true)
    ∧ (RecommendationEngine.findRecommendations [pkgFull] prefsFull).map
        (fun r => r.score) = [120] := by
  have hmap : (RecommendationEngine.findRecommendations [pkgFull] prefsFull).map
      (fun r => r.score) = [120] := by
    unfold RecommendationEngine.findRecommendations
    simp only [List.map_cons, List.map_nil, pkgFull_score]
    rw [List.filter_cons_of_pos rfl]
    simp
  refine ⟨?_, hmap⟩
  intro hall
  rw [List.all_eq_true] at hall
  have h120 : (120 : ℤ) ∈ (RecommendationEngine.findRecommendations [pkgFull]
      prefsFull).map (fun r => r.score) := by
    rw [hmap]; exact List.mem_singleton.2 rfl
  rw [List.mem_map] at h120
  obtain ⟨r, hr, hrs⟩ := h120
  have := hall r hr
  rw [decide_eq_true_eq] at this
  omega

theorem roundR_mono {x y : ℝ} (h : x ≤ y) : round x ≤ round y := by
  rw [round_eq, round_eq]
  exact Int.floor_mono (by linarith)

/-- A cosine-mapped score is at most 100. -/
theorem round_cos_mul_100_le (a b : List ℝ) :
    round (cosineSimilarity a b * 100) ≤ 100 := by
  have h := cosineSimilarity_le_one a b
  have h2 : cosineSimilarity a b * 100 ≤ ((100 : ℤ) : ℝ) := by push_cast; linarith
  have h3 := roundR_mono h2
  rwa [round_intCast] at h3

/-- C1 (amended): every attribute-matcher result carries an integer score
in (0, 120] — the sum of all weights is 120, above the claimed bound of
100 — while the cosine-based linear paths map scores into [0, 100]; the
index-backed path only guarantees non-negativity, since its score is
computed from the backend's raw inner-product distance. -/
theorem claim_C1_amended (packages : List TicketPackage) (prefs : UserPreferences)
    (query : Str) (st : FAISSSearchService.ServiceState) (queryTime : JSDate) (k : ℕ) :
    ((RecommendationEngine.findRecommendations packages prefs).all
      fun r => decide (0 < r.score ∧ r.score ≤ 120)) = true
    ∧ ((VectorRecommendationEngine.findRecommendationsByQuery packages query).all
      fun r => decide (0 ≤ r.score ∧ r.score ≤ 100)) = true
    ∧ ((FAISSSearchService.fallbackSearch st queryTime query k).all
      fun r => decide (0 ≤ r.score ∧ r.score ≤ 100)) = true
    ∧ ((FAISSSearchService.findRecommendationsByQuery st queryTime query k).all
      fun r => decide (0 ≤ r.score)) = true := by
  refine ⟨?_, ?_, ?_, ?_⟩
  · rw [List.all_eq_true]
    intro r hr
    simp only [RecommendationEngine.findRecommendations] at hr
    obtain ⟨hmem, hpos⟩ := mem_of_take_sort_filter hr
    rw [List.mem_map] at hmem
    obtain ⟨p, hp, hrp⟩ := hmem
    rw [decide_eq_true_eq]
    refine ⟨of_decide_eq_true hpos, ?_⟩
    rw [← hrp]
    exact RecommendationEngine.calculateScore_le p prefs
  · rw [List.all_eq_true]
    intro r hr
    simp only [VectorRecommendationEngine.findRecommendationsByQuery] at hr
    obtain ⟨hmem, hgt⟩ := mem_of_take_sort_filter hr
    rw [List.mem_filterMap] at hmem
    obtain ⟨p, hp, hf⟩ := hmem
    rw [Option.map_eq_some'] at hf
    obtain ⟨emb, hemb, hrval⟩ := hf
    rw [decide_eq_true_eq]
    have hgt' := of_decide_eq_true hgt
    refine ⟨by omega, ?_⟩
    rw [← hrval]
    exact round_cos_mul_100_le _ _
  · rw [fallbackSearch_eq_nil]
    rfl
  · have hall := faiss_output_gt30 st queryTime query k
    rw [List.all_eq_true] at hall ⊢
    intro r hr
    have := of_decide_eq_true (hall r hr)
    rw [decide_eq_true_eq]
    omega

theorem sum_replicate_zero (n : ℕ) : (List.replicate n (0 : ℝ)).sum = 0 := by
  induction n with
  | zero => rfl
  | succ m ih => simp [List.replicate_succ, ih]

theorem dotR_append_zeros (a b : List ℝ) (n m : ℕ) (h : a.length = b.length) :
    dotR (a ++ List.replicate n 0) (b ++ List.replicate m 0) = dotR a b := by
  unfold dotR
  rw [List.zipWith_append _ _ _ _ _ h, List.sum_append]
  have hz : (List.zipWith (fun x y => x * y) (List.replicate n (0 : ℝ))
      (List.replicate m (0 : ℝ))).sum = 0 := by
    rw [List.zipWith_replicate]
    simp [sum_replicate_zero]
  rw [hz, add_zero]

theorem padTo_eq_append (n : ℕ) (l : List ℝ) (h : l.length ≤ n) :
    FAISSSearchService.padTo n l = l ++ List.replicate (n - l.length) 0 := by
  unfold FAISSSearchService.padTo
  apply List.take_of_length_le
  rw [List.length_append, List.length_replicate]
  omega

/-- The event date of the C2 catalog item. -/
def dC2 : JSDate := { time := 1700000000000, month := 11, day := 6 }

/-- A clock reading 400 days before the event, in January on a Sunday. -/
def nowA : JSDate := { time := 1665440000000, month := 0, day := 0 }

/-- A clock reading at the event time, in December on a Saturday. -/
def nowB : JSDate := { time := 1700000000000, month := 11, day := 6 }

/-- The C2 catalog item: New York basketball, price 0 (so its log-price
feature vanishes), Bronze hospitality, 100 tickets. -/
def pkgC2 : TicketPackage where
  id := [ '1' ]
  price := 0
  venue := [ 'x' ]
  date := dC2
  sportType := ("Basketball").toList
  seatingCategory := [ 'x' ]
  hospitalityType := [ 'x' ]
  hospitalityLevel := ("Bronze").toList
  location := ("New York").toList
  availableTickets := 100
  description := []

/-- The C2 query. -/
def qC2 : Str := ("new york basketball month week").toList

theorem c2_q_loc : FAISSSearchService.extractLocationFromQuery (lowerStr qC2)
    = [1, 0, 0, 0, 0, 0, 0, 0, 0.8, 0.3] := by
  simp +decide [FAISSSearchService.extractLocationFromQuery, firstIncl, qC2, lowerStr]

theorem c2_q_sport : FAISSSearchService.extractSportFromQuery (lowerStr qC2)
    = [1, 0, 0, 0, 0.9, 0.8, 0.7] := by
  simp +decide [FAISSSearchService.extractSportFromQuery, FAISSSearchService.sportFeatures,
    firstIncl, qC2, lowerStr]

theorem c2_q_price : FAISSSearchService.extractPricePreferences (lowerStr qC2)
    = [0.5, 0, 0, 0, 0, Real.log 501 / 10] := by
  have h : FAISSSearchService.pricePrefData (lowerStr qC2) = (0.5, 0, 0, 0, 0) := by
    simp +decide [FAISSSearchService.pricePrefData, qC2, lowerStr]
  simp only [FAISSSearchService.extractPricePreferences, h]
  norm_num

theorem c2_q_hosp : FAISSSearchService.extractHospitalityPreferences (lowerStr qC2)
    = [0.5, 0, 0, 0, 0] := by
  simp +decide [FAISSSearchService.extractHospitalityPreferences, qC2, lowerStr]

theorem c2_q_venue : FAISSSearchService.extractVenuePreferences (lowerStr qC2)
    = [0.5, 0, 0, 0] := by
  simp +decide [FAISSSearchService.extractVenuePreferences, qC2, lowerStr]

theorem c2_q_dateA : FAISSSearchService.extractDatePreferences (lowerStr qC2) nowA
    = [0.5, 0, 0, 1, 1] := by
  simp +decide [FAISSSearchService.extractDatePreferences, qC2, lowerStr, nowA]

theorem c2_q_dateB : FAISSSearchService.extractDatePreferences (lowerStr qC2) nowB
    = [0.5, 11 / 12, 6 / 7, 1, 1] := by
  simp +decide [FAISSSearchService.extractDatePreferences, qC2, lowerStr, nowB]

theorem c2_q_group : FAISSSearchService.extractGroupPreferences (lowerStr qC2)
    = [0.5, 0, 0, 0] := by
  simp +decide [FAISSSearchService.extractGroupPreferences, firstGroupMatch, qC2, lowerStr]

theorem c2_q_intent : FAISSSearchService.extractIntentFeatures (lowerStr qC2)
    = [0, 0, 0, 0, 0, 0, 0] := by
  simp +decide [FAISSSearchService.extractIntentFeatures, qC2, lowerStr]

theorem c2_q_seat : FAISSSearchService.extractSeatingPreferences (lowerStr qC2)
    = [0, 0, 0, 0, 0] := by
  simp +decide [FAISSSearchService.extractSeatingPreferences, qC2, lowerStr]

theorem c2_p_loc : FAISSSearchService.encodeLocationWithProximity pkgC2.location
    = [1, 0, 0, 0, 0, 0, 0, 0, 0.8, 0.3] := rfl

theorem c2_p_sport : FAISSSearchService.encodeSportWithTeams pkgC2.sportType
    = [1, 0, 0, 0, 0.9, 0.8, 0.7] := rfl

theorem c2_p_price : FAISSSearchService.encodePriceFeatures pkgC2.price
    = [0, 1, 0, 0, 0, 0] := by
  norm_num [FAISSSearchService.encodePriceFeatures, pkgC2, Real.log_one]

theorem c2_p_hosp : FAISSSearchService.encodeHospitalityFeatures pkgC2.hospitalityLevel
    pkgC2.hospitalityType = [0.25, 0, 0, 0, 0] := by
  simp +decide [FAISSSearchService.encodeHospitalityFeatures, pkgC2, lowerStr]

theorem c2_p_venue : FAISSSearchService.encodeVenueFeatures pkgC2.venue
    = [0.5, 0, 0, 0] := by
  simp +decide [FAISSSearchService.encodeVenueFeatures, pkgC2, lowerStr]

theorem c2_p_dateB : FAISSSearchService.encodeDateFeatures pkgC2.date nowB
    = [0, 11 / 12, 6 / 7, 1, 1] := by
  norm_num [FAISSSearchService.encodeDateFeatures, pkgC2, dC2, nowB]

theorem c2_p_avail : FAISSSearchService.encodeAvailabilityFeatures pkgC2.availableTickets
    = [1, 1, 0, 0] := by
  norm_num [FAISSSearchService.encodeAvailabilityFeatures, pkgC2]

theorem c2_p_text : FAISSSearchService.encodeTextFeatures pkgC2.description
    = [0, 0, 0, 0, 0, 0, 0] := by
  simp +decide [FAISSSearchService.encodeTextFeatures, pkgC2, lowerStr]

theorem c2_p_seat : FAISSSearchService.encodeSeatingFeatures pkgC2.seatingCategory
    = [0, 0, 0, 0, 0] := by
  simp +decide [FAISSSearchService.encodeSeatingFeatures, pkgC2, lowerStr]

/-- The call-A query vector: 53 computed features, zero-padded to 384. -/
theorem c2_qe_A : FAISSSearchService.createQueryEmbedding nowA qC2
    = ([1, 0, 0, 0, 0, 0, 0, 0, 0.8, 0.3,
        1, 0, 0, 0, 0.9, 0.8, 0.7,
        0.5, 0, 0, 0, 0, Real.log 501 / 10,
        0.5, 0, 0, 0, 0,
        0.5, 0, 0, 0,
        0.5, 0, 0, 1, 1,
        0.5, 0, 0, 0,
        0, 0, 0, 0, 0, 0, 0,
        0, 0, 0, 0, 0] : List ℝ) ++ List.replicate 331 0 := by
  simp only [FAISSSearchService.createQueryEmbedding]
  rw [c2_q_loc, c2_q_sport, c2_q_price, c2_q_hosp, c2_q_venue, c2_q_dateA, c2_q_group,
    c2_q_intent, c2_q_seat]
  rw [padTo_eq_append 384 _ (by simp)]
  norm_num

/-- The call-B query vector: only the date block differs from call A. -/
theorem c2_qe_B : FAISSSearchService.createQueryEmbedding nowB qC2
    = ([1, 0, 0, 0, 0, 0, 0, 0, 0.8, 0.3,
        1, 0, 0, 0, 0.9, 0.8, 0.7,
        0.5, 0, 0, 0, 0, Real.log 501 / 10,
        0.5, 0, 0, 0, 0,
        0.5, 0, 0, 0,
        0.5, 11 / 12, 6 / 7, 1, 1,
        0.5, 0, 0, 0,
        0, 0, 0, 0, 0, 0, 0,
        0, 0, 0, 0, 0] : List ℝ) ++ List.replicate 331 0 := by
  simp only [FAISSSearchService.createQueryEmbedding]
  rw [c2_q_loc, c2_q_sport, c2_q_price, c2_q_hosp, c2_q_venue, c2_q_dateB, c2_q_group,
    c2_q_intent, c2_q_seat]
  rw [padTo_eq_append 384 _ (by simp)]
  norm_num

/-- The cached package vector of the C2 service instance, generated at its
construction-time clock reading `nowB`. -/
theorem c2_pe_B : FAISSSearchService.createPackageEmbedding nowB pkgC2
    = ([1, 0, 0, 0, 0, 0, 0, 0, 0.8, 0.3,
        1, 0, 0, 0, 0.9, 0.8, 0.7,
        0, 1, 0, 0, 0, 0,
        0.25, 0, 0, 0, 0,
        0.5, 0, 0, 0,
        0, 11 / 12, 6 / 7, 1, 1,
        1, 1, 0, 0,
        0, 0, 0, 0, 0, 0, 0,
        0, 0, 0, 0, 0] : List ℝ) ++ List.replicate 331 0 := by
  simp only [FAISSSearchService.createPackageEmbedding]
  rw [c2_p_loc, c2_p_sport, c2_p_price, c2_p_hosp, c2_p_venue, c2_p_dateB, c2_p_avail,
    c2_p_text, c2_p_seat]
  rw [padTo_eq_append 384 _ (by simp)]
  norm_num


/-- Exact inner product of the call-A query vector (clock `nowA`) with the
cached package vector: the log coordinate pairs with the package's 0 (price
0), so the value is rational. -/
theorem c2_dotA_eq : dotR (FAISSSearchService.createQueryEmbedding nowA qC2)
    (FAISSSearchService.createPackageEmbedding nowB pkgC2) = 7.545 := by
  rw [c2_qe_A, c2_pe_B, dotR_append_zeros _ _ _ _ (by simp)]
  norm_num [dotR]

/-- Lower bound on the call-B inner product (exact value 7.545 + 121/144 +
36/49 ≈ 9.12). -/
theorem c2_dotB_lo : (9.115 : ℝ) ≤ dotR (FAISSSearchService.createQueryEmbedding nowB qC2)
    (FAISSSearchService.createPackageEmbedding nowB pkgC2) := by
  rw [c2_qe_B, c2_pe_B, dotR_append_zeros _ _ _ _ (by simp)]
  norm_num [dotR]

theorem c2_scoreA : round (max 0 (dotR (FAISSSearchService.createQueryEmbedding nowA qC2)
    (FAISSSearchService.createPackageEmbedding nowB pkgC2) * 100)) = 755 := by
  rw [c2_dotA_eq,
    show max (0 : ℝ) (7.545 * 100) = 754.5 by rw [max_eq_right (by norm_num)]; norm_num,
    round_eq, show (754.5 : ℝ) + 1 / 2 = ((755 : ℤ) : ℝ) by norm_num, Int.floor_intCast]

theorem c2_scoreB_ge : (912 : ℤ) ≤ round (max 0
    (dotR (FAISSSearchService.createQueryEmbedding nowB qC2)
      (FAISSSearchService.createPackageEmbedding nowB pkgC2) * 100)) := by
  have h : (911.5 : ℝ) ≤ max 0 (dotR (FAISSSearchService.createQueryEmbedding nowB qC2)
      (FAISSSearchService.createPackageEmbedding nowB pkgC2) * 100) :=
    le_trans (by nlinarith [c2_dotB_lo]) (le_max_right 0 _)
  have h2 := roundR_mono h
  have h3 : round ((911.5 : ℝ)) = 912 := by
    rw [round_eq, show (911.5 : ℝ) + 1 / 2 = ((912 : ℤ) : ℝ) by norm_num, Int.floor_intCast]
  rw [h3] at h2
  exact h2

/-- A model of the `faiss-node` `IndexFlatIP` search over the one-vector
index that `buildIndex` constructs from the cached embedding of `pkgC2`:
label 0 carries the inner product of the query vector with the stored
vector, and the remaining `k` slots are padded with label −1 (as faiss pads
when the index holds fewer than `k` vectors; their sentinel distances are
irrelevant because the label guard drops them). -/
noncomputable def ipBackendC2 : FAISSSearchService.Backend :=
  fun v _k => Except.ok
    [((0 : ℤ), dotR v (FAISSSearchService.createPackageEmbedding nowB pkgC2)),
     ((-1 : ℤ), 0), ((-1 : ℤ), 0), ((-1 : ℤ), 0), ((-1 : ℤ), 0)]

/-- A C2 service instance: one-package catalog, embeddings cached at clock
reading `nowB`, inner-product index initialized. -/
noncomputable def stC2 : FAISSSearchService.ServiceState :=
  { packages := [pkgC2], initTime := nowB, backend := some ipBackendC2 }

/-- Running the C2 instance's index path at query-time clock `qt` returns
the single catalog item scored by its clamped, rounded inner product. -/
theorem c2_run (qt : JSDate)
    (h30 : 30 < round (max 0 (dotR (FAISSSearchService.createQueryEmbedding qt qC2)
      (FAISSSearchService.createPackageEmbedding nowB pkgC2) * 100))) :
    FAISSSearchService.findRecommendationsByQuery stC2 qt qC2 5
      = [RecommendationScore.mk pkgC2
          (round (max 0 (dotR (FAISSSearchService.createQueryEmbedding qt qC2)
            (FAISSSearchService.createPackageEmbedding nowB pkgC2) * 100)))
          (FAISSSearchService.generateReasons qC2 pkgC2
            (dotR (FAISSSearchService.createQueryEmbedding qt qC2)
              (FAISSSearchService.createPackageEmbedding nowB pkgC2)))] := by
  simp only [FAISSSearchService.findRecommendationsByQuery, stC2, ipBackendC2]
  simp +decide [List.filterMap_cons, List.filterMap_nil]
  exact h30

/-- Claim C2 (counterexample): the ranking is NOT a pure function of
(catalog, query, k).  On the FAISS index path the query embedding is built
with `await`, so `extractDatePreferences` genuinely reads the ambient
`new Date()`: for the fixed service `stC2`, the fixed query
"new york basketball month week" and k = 5, a call whose clock reads
January 0th-month/Sunday scores the package round(754.5) = 755, while a
call at the cached December/Saturday clock scores it at least 912 (the
month-match and weekday-match features of the query vector align with the
package vector), so the two outputs differ. -/
theorem claim_C2_counterexample :
    FAISSSearchService.findRecommendationsByQuery stC2 nowA qC2 5
      ≠ FAISSSearchService.findRecommendationsByQuery stC2 nowB qC2 5 := by
  rw [c2_run nowA (by rw [c2_scoreA]; omega),
    c2_run nowB (by have h := c2_scoreB_ge; omega)]
  intro h
  rw [List.cons.injEq, RecommendationScore.mk.injEq] at h
  have hs := h.1.2.1
  have h1 := c2_scoreA
  have h2 := c2_scoreB_ge
  omega

/-- Claim C2 (amended): determinism holds only up to the ambient clock.
The query-time clock enters `findRecommendationsByQuery` solely through
`extractDatePreferences` inside the awaited `createQueryEmbedding`: two
calls on the same service state, query and k whose clock readings produce
the same extracted date-preference block return identical results.
Moreover the linear fallback contributes no clock dependence at all: its
un-awaited query embedding makes every similarity 0, so it returns `[]`
for every clock reading. -/
theorem claim_C2_amended (st : FAISSSearchService.ServiceState) (query : Str) (k : ℕ)
    (qt₁ qt₂ : JSDate)
    (hq : FAISSSearchService.extractDatePreferences (lowerStr query) qt₁
        = FAISSSearchService.extractDatePreferences (lowerStr query) qt₂) :
    FAISSSearchService.findRecommendationsByQuery st qt₁ query k
      = FAISSSearchService.findRecommendationsByQuery st qt₂ query k
    ∧ FAISSSearchService.fallbackSearch st qt₁ query k = [] := by
  have hqe : FAISSSearchService.createQueryEmbedding qt₁ query
      = FAISSSearchService.createQueryEmbedding qt₂ query := by
    simp only [FAISSSearchService.createQueryEmbedding]
    rw [hq]
  have hfb : FAISSSearchService.fallbackSearch st qt₁ query k
      = FAISSSearchService.fallbackSearch st qt₂ query k := by
    rw [fallbackSearch_eq_nil, fallbackSearch_eq_nil]
  refine ⟨?_, fallbackSearch_eq_nil st qt₁ query k⟩
  cases hb : st.backend with
  | none =>
      simp only [FAISSSearchService.findRecommendationsByQuery, hb]
      exact hfb
  | some bk =>
      simp only [FAISSSearchService.findRecommendationsByQuery, hb, hqe]
      cases hs : bk (FAISSSearchService.createQueryEmbedding qt₂ query) k with
      | error e => simp only [hs]; exact hfb
      | ok res => simp only [hs]

/-- A clock reading for the C2 witness. -/
def qtW1 : JSDate := { time := 1700000000000, month := 5, day := 2 }

/-- A different clock reading (86 400 000 ms later) observing the same
month and weekday as `qtW1`. -/
def qtW2 : JSDate := { time := 1700086400000, month := 5, day := 2 }

/-- Witness for C2's amended theorem at the concrete service `stC2`, query
"new york basketball month week", k = 5 and the two distinct clock
readings `qtW1`, `qtW2` that share their date features: the hypothesis is
discharged by computation and the two runs agree. -/
theorem claim_C2_witness :
    (FAISSSearchService.findRecommendationsByQuery stC2 qtW1 qC2 5
      = FAISSSearchService.findRecommendationsByQuery stC2 qtW2 qC2 5)
    ∧ FAISSSearchService.fallbackSearch stC2 qtW1 qC2 5 = [] :=
  claim_C2_amended stC2 qC2 5 qtW1 qtW2 rfl
